import Mathlib

/-!
Verification of the retail-stock analysis core (scorers, composite aggregator,
divergence detectors, ranker, alert synthesis, provider fan-out).

Shallow embedding conventions:
* Python floats are modelled as exact rationals (`ℚ`); machine counts as `Nat`.
* `Optional[float]` is `Option ℚ`; Python truthiness of such values
  (`if x:` is false for both `None` and `0.0`) is `qTruthy`; for optional
  strings it is `sTruthy` (false for `None` and `""`).
* `datetime.now()` is modelled by threading an abstract clock value
  (`Nat`) into every function that stamps a timestamp.  Snapshot input
  records drop their `timestamp` fields (never read by the core; they are
  provider data).  Fields never read by the core (`subreddit_scores`,
  `chart_images`, `rating_changes_30d`) are also dropped.
* Python statements that can raise (float division by zero, `int()` applied
  to a non-numeric string) are embedded with `Except Unit`; a `try/except`
  block becomes a `match` on the `Except` value.
* Python `f"..."` numeric interpolation (`:.1f` and similar) is abstracted
  to the exact decimal-free rendering `fmt`; this keeps the string a
  deterministic function of exactly the same data.
* Source field names ending in `ratio` are shortened (`pe` for `pe_ratio`,
  `ps` for `ps_ratio`, `current_r` for `current_ratio`, `short_r` for
  `short_ratio`); everything else keeps the source name.
-/

set_option maxRecDepth 8000

/-- `TrendDirection` enum from `src/src/models/stock_data.py`. -/
inductive TrendDirection where
  | bullish
  | bearish
  | neutral
deriving DecidableEq, Repr

/-- The Python enum's `.value` string for `TrendDirection`. -/
def TrendDirection.value : TrendDirection → String
  | .bullish => "bullish"
  | .bearish => "bearish"
  | .neutral => "neutral"

/-- `AnalystRating` enum from `src/src/models/stock_data.py`. -/
inductive AnalystRating where
  | strong_buy
  | buy
  | hold
  | sell
  | strong_sell
deriving DecidableEq, Repr

/-- The Python enum's `.value` string for `AnalystRating`.  Note these are
non-numeric strings; `int()` applied to any of them raises `ValueError`. -/
def AnalystRating.value : AnalystRating → String
  | .strong_buy => "strong_buy"
  | .buy => "buy"
  | .hold => "hold"
  | .sell => "sell"
  | .strong_sell => "strong_sell"

/-- `SocialSentiment` dataclass (timestamp and subreddit_scores dropped:
never read by the core). -/
structure SocialSentiment where
  platform : String
  mentions : Nat
  sentiment_score : ℚ
  volume_trend : TrendDirection
  top_keywords : List String
  influencer_mentions : Nat
deriving DecidableEq, Repr

/-- `TechnicalAnalysis` dataclass.  `macd_signal` is a plain string in the
source (compared against `'bullish'`/`'neutral'` literals).  Moving
averages and support/resistance dicts are association lists. -/
structure TechnicalAnalysis where
  price : ℚ
  volume : Nat
  rsi : ℚ
  macd_signal : String
  bollinger_position : ℚ
  moving_averages : List (String × ℚ)
  support_resistance : List (String × ℚ)
  pattern_detected : Option String
  pattern_confidence : ℚ
  trend_direction : TrendDirection
  volume_spike : Bool
deriving DecidableEq, Repr

/-- `FundamentalData` dataclass.  `pe` is the source's `pe_ratio`, `ps` is
`ps_ratio`, `current_r` is `current_ratio`. -/
structure FundamentalData where
  market_cap : ℚ
  pe : Option ℚ
  ps : Option ℚ
  revenue_growth_yoy : Option ℚ
  profit_margin : Option ℚ
  debt_to_equity : Option ℚ
  current_r : Option ℚ
  roe : Option ℚ
  free_cash_flow : Option ℚ
  enterprise_value : Option ℚ
  book_value : Option ℚ
deriving DecidableEq, Repr

/-- `AnalystCoverage` dataclass (rating_changes_30d dropped: never read). -/
structure AnalystCoverage where
  consensus_rating : AnalystRating
  num_analysts : Nat
  avg_price_target : ℚ
  high_price_target : ℚ
  low_price_target : ℚ
  price_target_upside : ℚ
  recent_upgrades : Nat
  recent_downgrades : Nat
  analyst_firms : List String
deriving DecidableEq, Repr

/-- `StockStructure` dataclass.  `short_r` is the source's `short_ratio`. -/
structure StockStructure where
  shares_outstanding : ℚ
  float_shares : ℚ
  short_interest : ℚ
  short_r : ℚ
  cost_to_borrow : Option ℚ
  utilization_rate : Option ℚ
  institutional_ownership : ℚ
  insider_ownership : ℚ
  days_to_cover : Option ℚ
  short_squeeze_score : ℚ
deriving DecidableEq, Repr

/-- `CompositeScore` dataclass; `timestamp` is the abstract clock value at
which the record was produced. -/
structure CompositeScore where
  total_score : ℚ
  social_score : ℚ
  technical_score : ℚ
  fundamental_score : ℚ
  analyst_score : ℚ
  structure_score : ℚ
  risk_level : String
  opportunity_type : String
  confidence_level : ℚ
  timestamp : Nat
deriving DecidableEq, Repr

/-- `DivergenceType` enum from `src/src/analyzers/divergence_detector.py`. -/
inductive DivergenceType where
  | retail_bullish_inst_bearish
  | retail_bearish_inst_bullish
  | squeeze_setup
  | momentum_divergence
  | value_trap
  | hidden_gem
  | hype_bubble
  | oversold_reversal
deriving DecidableEq, Repr

/-- The Python enum's `.value` string for `DivergenceType`. -/
def DivergenceType.value : DivergenceType → String
  | .retail_bullish_inst_bearish => "retail_bullish_institutional_bearish"
  | .retail_bearish_inst_bullish => "retail_bearish_institutional_bullish"
  | .squeeze_setup => "short_squeeze_setup"
  | .momentum_divergence => "momentum_divergence"
  | .value_trap => "value_trap"
  | .hidden_gem => "hidden_gem"
  | .hype_bubble => "hype_bubble"
  | .oversold_reversal => "oversold_reversal"

/-- `DivergenceSignal` dataclass. -/
structure DivergenceSignal where
  symbol : String
  divergence_type : DivergenceType
  strength : ℚ
  confidence : ℚ
  description : String
  catalyst : Option String
  timeframe : String
  risk_level : String
  expected_move : Option ℚ
  timestamp : Nat
  supporting_factors : List String
  warning_factors : List String
deriving DecidableEq, Repr

/-- `StockAlert` dataclass. -/
structure StockAlert where
  symbol : String
  alert_type : String
  score : ℚ
  trigger_reason : String
  priority : String
  social_catalyst : Option String
  technical_catalyst : Option String
  fundamental_catalyst : Option String
  analyst_catalyst : Option String
  structure_catalyst : Option String
  timestamp : Nat
  chart_image_url : Option String
deriving DecidableEq, Repr

/-- `StockAnalysis` dataclass.  `composite_score` is `Option` because the
source constructs the record with `composite_score=None` and assigns it
afterwards. -/
structure StockAnalysis where
  symbol : String
  company_name : String
  sector : String
  industry : String
  social_sentiment : SocialSentiment
  technical_analysis : TechnicalAnalysis
  fundamental_data : FundamentalData
  analyst_coverage : AnalystCoverage
  stock_structure : StockStructure
  composite_score : Option CompositeScore
  alerts : List StockAlert
  last_updated : Nat
deriving DecidableEq, Repr

/-- Scoring weights (from `src/src/core/config.py` `Settings`); `struct` is
the source's `stock_structure_weight`. -/
structure Weights where
  social : ℚ
  technical : ℚ
  fundamental : ℚ
  analyst : ℚ
  struct : ℚ
deriving DecidableEq, Repr

/-- The configured default weights 0.25/0.25/0.20/0.15/0.15. -/
def defaultWeights : Weights := ⟨0.25, 0.25, 0.20, 0.15, 0.15⟩

/-- `max(0, min(x, 100.0))`, the clamp applied by every scorer. -/
def pyClamp (x : ℚ) : ℚ := max 0 (min x 100)

/-- Python truthiness of an `Optional[float]`: `None` and `0.0` are falsy. -/
def qTruthy : Option ℚ → Bool
  | none => false
  | some v => v != 0

/-- Python truthiness of an `Optional[str]`: `None` and `""` are falsy. -/
def sTruthy : Option String → Bool
  | none => false
  | some s => s != ""

/-- Python `x or 0` on an `Optional[float]` (used for `utilization_rate`):
yields the value when truthy and `0` otherwise, which coincides with
`getD 0`. -/
def pyOrZero (o : Option ℚ) : ℚ := o.getD 0

/-- ASCII lower-casing of one character (kernel-computable model of
`str.lower()` per character). -/
def lowerChar (c : Char) : Char :=
  if 65 ≤ c.toNat ∧ c.toNat ≤ 90 then Char.ofNat (c.toNat + 32) else c

/-- Python `s.lower()` (ASCII). -/
def pyLower (s : String) : String := ⟨s.toList.map lowerChar⟩

/-- ASCII upper-casing of one character. -/
def upperChar (c : Char) : Char :=
  if 97 ≤ c.toNat ∧ c.toNat ≤ 122 then Char.ofNat (c.toNat - 32) else c

/-- Python `s.upper()` (ASCII). -/
def pyUpper (s : String) : String := ⟨s.toList.map upperChar⟩

/-- The numeric value of an ASCII digit character, if it is one. -/
def digitVal (c : Char) : Option Nat :=
  if 48 ≤ c.toNat ∧ c.toNat ≤ 57 then some (c.toNat - 48) else none

/-- Accumulate a digit string into a number; any non-digit fails. -/
def parseDigits : List Char → Option Nat → Option Nat
  | [], acc => acc
  | c :: cs, acc =>
    match digitVal c, acc with
    | some d, some n => parseDigits cs (some (n * 10 + d))
    | some d, none => parseDigits cs (some d)
    | none, _ => none

/-- Python `int(s)`: succeeds on optionally-signed digit strings and raises
`ValueError` (modelled as `none`) on anything else — in particular on every
`AnalystRating.value` string, which is what the source feeds it. -/
def pyInt (s : String) : Option Int :=
  match s.toList with
  | '-' :: rest => (parseDigits rest none).map (fun n => -(n : Int))
  | l => (parseDigits l none).map (fun n => (n : Int))

/-- Abstract rendering of a number into a string, standing in for Python
f-string interpolation (`:.1f`, `:.2f`, plain `{x}`). -/
def fmt (q : ℚ) : String := toString q

/-- `dict.get(key, default)` on an association-list dict. -/
def dictGet (d : List (String × ℚ)) (k : String) (dflt : ℚ) : ℚ :=
  match d.find? (fun p => p.1 == k) with
  | some p => p.2
  | none => dflt

/-- Case-insensitive-ready substring test (`needle in hay` in Python). -/
def strContains (hay needle : String) : Bool :=
  hay.toList.tails.any (fun t => needle.toList.isPrefixOf t)

/-- Bullish keyword list from `SocialSentimentScorer.score_sentiment`. -/
def bullishKeywords : List String :=
  ["moon", "rocket", "diamond", "hodl", "squeeze", "buy", "calls"]

/-- Bearish keyword list from `SocialSentimentScorer.score_sentiment`. -/
def bearishKeywords : List String := ["sell", "puts", "crash", "dump"]

/-- The keyword-quality accumulation loop in `score_sentiment`: +2 for each
bullish keyword, -2 for each bearish one. -/
def keywordScore (kws : List String) : ℚ :=
  kws.foldl
    (fun acc kw =>
      if bullishKeywords.contains (pyLower kw) then acc + 2
      else if bearishKeywords.contains (pyLower kw) then acc - 2
      else acc) 0

/-- The successive `score +=` contributions of
`SocialSentimentScorer.score_sentiment`, in source order: base sentiment
(0-40), mention volume (0-30), trend direction (0-15), influencer mentions
(0-15), keyword quality (-10..10).  Listing them separately lets the
`try/except` semantics of the source be stated exactly: an exception after
`k` statements leaves the clamped partial sum (`score_sentiment_upto`). -/
def sentimentSteps (s : SocialSentiment) : List ℚ :=
  [ min ((s.sentiment_score + 1) * 20) 40
  , if s.mentions > 1000 then 30
    else if s.mentions > 500 then 25
    else if s.mentions > 200 then 20
    else if s.mentions > 100 then 15
    else if s.mentions > 50 then 10
    else if s.mentions > 10 then 5
    else 0
  , if s.volume_trend = .bullish then 15
    else if s.volume_trend = .neutral then 7
    else 0
  , if s.influencer_mentions > 20 then 15
    else if s.influencer_mentions > 10 then 10
    else if s.influencer_mentions > 5 then 5
    else 0
  , max (-10) (min (keywordScore s.top_keywords) 10) ]

/-- `score_sentiment` when the body raised after `k` of its accumulation
statements: the internal `except` handler keeps the partial `score`, which
is then clamped and returned (the source never resets it to 0). -/
def score_sentiment_upto (s : SocialSentiment) (k : Nat) : ℚ :=
  pyClamp (((sentimentSteps s).take k).sum)

/-- `SocialSentimentScorer.score_sentiment` (fault-free run). -/
def score_sentiment (s : SocialSentiment) : ℚ :=
  pyClamp ((sentimentSteps s).sum)

/-- `TechnicalAnalysisScorer.score_technical`. -/
def score_technical (t : TechnicalAnalysis) : ℚ :=
  let rsiPts : ℚ :=
    if 30 ≤ t.rsi ∧ t.rsi ≤ 70 then 20
    else if (20 ≤ t.rsi ∧ t.rsi < 30) ∨ (70 < t.rsi ∧ t.rsi ≤ 80) then 15
    else if t.rsi < 20 then 25
    else if t.rsi > 80 then 5
    else 0
  let macdPts : ℚ :=
    if t.macd_signal = "bullish" then 15
    else if t.macd_signal = "neutral" then 7
    else 0
  let bbPts : ℚ :=
    if t.bollinger_position < 0.2 then 15
    else if 0.2 ≤ t.bollinger_position ∧ t.bollinger_position ≤ 0.8 then 10
    else if t.bollinger_position > 0.8 then 5
    else 0
  let trendPts : ℚ :=
    if t.trend_direction = .bullish then 20
    else if t.trend_direction = .neutral then 10
    else 0
  let patternPts : ℚ :=
    if sTruthy t.pattern_detected then t.pattern_confidence * 15 else 0
  let spikePts : ℚ := if t.volume_spike then 10 else 0
  let maPts : ℚ :=
    if t.moving_averages ≠ [] then
      let sma20 := dictGet t.moving_averages "sma_20" t.price
      let sma50 := dictGet t.moving_averages "sma_50" t.price
      if t.price > sma20 ∧ sma20 > sma50 then 5
      else if t.price > sma20 then 2
      else 0
    else 0
  pyClamp (rsiPts + macdPts + bbPts + trendPts + patternPts + spikePts + maPts)

/-- `FundamentalAnalysisScorer._score_pe_ratio` (0-10); `None` or negative
gives 1. -/
def score_pe (pe : Option ℚ) : ℚ :=
  match pe with
  | none => 1
  | some v =>
    if v < 0 then 1
    else if v < 15 then 9
    else if v < 25 then 7
    else if v < 40 then 5
    else if v < 60 then 3
    else 1

/-- `FundamentalAnalysisScorer._score_ps_ratio` (0-10); `None` gives 5. -/
def score_ps (ps : Option ℚ) : ℚ :=
  match ps with
  | none => 5
  | some v =>
    if v < 2 then 9
    else if v < 5 then 7
    else if v < 10 then 5
    else if v < 20 then 3
    else 1

/-- `FundamentalAnalysisScorer._score_growth` (0-10). -/
def score_growth (g : ℚ) : ℚ :=
  if g > 50 then 10
  else if g > 25 then 8
  else if g > 15 then 6
  else if g > 5 then 5
  else if g > 0 then 3
  else 1

/-- `FundamentalAnalysisScorer._score_profit_margin` (0-10). -/
def score_profit_margin (m : ℚ) : ℚ :=
  if m > 20 then 10
  else if m > 15 then 8
  else if m > 10 then 6
  else if m > 5 then 4
  else if m > 0 then 2
  else 1

/-- `FundamentalAnalysisScorer._score_debt_ratio` (0-10). -/
def score_debt (d : ℚ) : ℚ :=
  if d < 0.3 then 9
  else if d < 0.6 then 7
  else if d < 1.0 then 5
  else if d < 2.0 then 3
  else 1

/-- `FundamentalAnalysisScorer._score_current_ratio` (0-10). -/
def score_current (c : ℚ) : ℚ :=
  if c > 2.5 then 9
  else if c > 1.5 then 7
  else if c > 1.0 then 5
  else if c > 0.5 then 3
  else 1

/-- `FundamentalAnalysisScorer._score_roe` (0-10). -/
def score_roe (r : ℚ) : ℚ :=
  if r > 20 then 10
  else if r > 15 then 8
  else if r > 10 then 6
  else if r > 5 then 4
  else if r > 0 then 2
  else 1

/-- `FundamentalAnalysisScorer.score_fundamental`: valuation (0-30), growth
(0-25), profitability (0-25), and financial health (0-20) averaged only
over the health sub-components actually present. -/
def score_fundamental (f : FundamentalData) : ℚ :=
  let valuation := (score_pe f.pe + score_ps f.ps) / 2 * 3
  let growth :=
    match f.revenue_growth_yoy with
    | none => 0
    | some g => score_growth g * 25 / 10
  let profit :=
    match f.profit_margin with
    | none => 0
    | some m => score_profit_margin m * 25 / 10
  let healthSum :=
    (match f.debt_to_equity with | none => 0 | some d => score_debt d) +
    (match f.current_r with | none => 0 | some c => score_current c) +
    (match f.roe with | none => 0 | some r => score_roe r)
  let healthCount : ℚ :=
    (if f.debt_to_equity.isSome then 1 else 0) +
    (if f.current_r.isSome then 1 else 0) +
    (if f.roe.isSome then 1 else 0)
  let health := if healthCount > 0 then healthSum / healthCount * 20 / 10 else 0
  pyClamp (valuation + growth + profit + health)

/-- `AnalystCoverageScorer.score_analyst_coverage`. -/
def score_analyst_coverage (a : AnalystCoverage) : ℚ :=
  let ratingPts : ℚ :=
    match a.consensus_rating with
    | .strong_buy => 40
    | .buy => 30
    | .hold => 15
    | .sell => 5
    | .strong_sell => 0
  let upsidePts : ℚ :=
    if a.price_target_upside > 50 then 30
    else if a.price_target_upside > 25 then 25
    else if a.price_target_upside > 15 then 20
    else if a.price_target_upside > 5 then 15
    else if a.price_target_upside > 0 then 10
    else if a.price_target_upside > -10 then 5
    else 0
  let breadthPts : ℚ :=
    if a.num_analysts > 20 then 15
    else if a.num_analysts > 15 then 12
    else if a.num_analysts > 10 then 10
    else if a.num_analysts > 5 then 7
    else if a.num_analysts > 2 then 5
    else 0
  let netChanges : Int := (a.recent_upgrades : Int) - (a.recent_downgrades : Int)
  let changePts : ℚ :=
    if netChanges > 3 then 15
    else if netChanges > 1 then 10
    else if netChanges = 1 then 5
    else if netChanges = 0 then 3
    else if netChanges < -1 then -5
    else 0
  pyClamp (ratingPts + upsidePts + breadthPts + changePts)

/-- `StockStructureScorer.score_stock_structure`.  The float-size branch
only divides when `shares_outstanding > 0`, so no division fault arises
here. -/
def score_stock_structure (s : StockStructure) : ℚ :=
  let squeezePts := s.short_squeeze_score * 0.4
  let siPts : ℚ :=
    if s.short_interest > 30 then 25
    else if s.short_interest > 20 then 20
    else if s.short_interest > 15 then 15
    else if s.short_interest > 10 then 10
    else if s.short_interest > 5 then 5
    else 0
  let floatPts : ℚ :=
    if s.shares_outstanding > 0 ∧ s.float_shares > 0 then
      let fr := s.float_shares / s.shares_outstanding
      if fr < 0.3 then 15
      else if fr < 0.5 then 12
      else if fr < 0.7 then 8
      else 5
    else 0
  let utilPts : ℚ :=
    if qTruthy s.utilization_rate then
      let u := s.utilization_rate.getD 0
      if u > 90 then 10
      else if u > 80 then 8
      else if u > 70 then 6
      else if u > 60 then 4
      else 0
    else 0
  let ctbPts : ℚ :=
    if qTruthy s.cost_to_borrow then
      let c := s.cost_to_borrow.getD 0
      if c > 50 then 10
      else if c > 25 then 8
      else if c > 10 then 6
      else if c > 5 then 4
      else 0
    else 0
  pyClamp (squeezePts + siPts + floatPts + utilPts + ctbPts)

/-- `CompositeScorer._determine_risk_level`: count five risk indicators and
map the count to high/medium/low.  The P/E indicator uses Python
truthiness (`if pe_ratio and pe_ratio > 50`). -/
def determine_risk_level (a : StockAnalysis) (total : ℚ) : String :=
  let rf : Nat :=
    (if a.technical_analysis.rsi > 80 ∨ a.technical_analysis.rsi < 20 then 1 else 0) +
    (if qTruthy a.fundamental_data.pe ∧ a.fundamental_data.pe.getD 0 > 50 then 1 else 0) +
    (if a.social_sentiment.sentiment_score > 0.8 then 1 else 0) +
    (if a.stock_structure.short_interest > 30 then 1 else 0) +
    (if total < 30 then 1 else 0)
  if rf ≥ 3 then "high"
  else if rf ≥ 1 then "medium"
  else "low"

/-- `CompositeScorer._determine_opportunity_type`: a cascade of `if`
statements returning at the first match, `"general"` as fallback.  The
value and growth rules use Python truthiness on the optional ratios. -/
def determine_opportunity_type (a : StockAnalysis) : String :=
  if a.stock_structure.short_interest > 20 ∧
     a.social_sentiment.sentiment_score > 0.3 ∧
     a.social_sentiment.mentions > 100 then "short_squeeze"
  else if a.social_sentiment.sentiment_score > 0.5 ∧
          a.technical_analysis.trend_direction = .bullish ∧
          a.technical_analysis.volume_spike then "momentum"
  else if qTruthy a.fundamental_data.pe ∧ a.fundamental_data.pe.getD 0 < 20 ∧
          (a.analyst_coverage.consensus_rating = .buy ∨
           a.analyst_coverage.consensus_rating = .strong_buy) then "value"
  else if qTruthy a.fundamental_data.revenue_growth_yoy ∧
          a.fundamental_data.revenue_growth_yoy.getD 0 > 20 ∧
          a.analyst_coverage.price_target_upside > 15 then "growth"
  else if a.social_sentiment.sentiment_score < -0.3 ∧
          (a.analyst_coverage.consensus_rating = .buy ∨
           a.analyst_coverage.consensus_rating = .strong_buy) then "contrarian"
  else "general"

/-- `CompositeScorer._calculate_confidence`: sum of independent 0.2
evidence weights, capped at 1.0. -/
def calculate_confidence (a : StockAnalysis) : ℚ :=
  let cf :=
    (if a.social_sentiment.mentions > 50 then (0.2 : ℚ) else 0) +
    (if a.analyst_coverage.num_analysts > 5 then (0.2 : ℚ) else 0) +
    (if sTruthy a.technical_analysis.pattern_detected then
       a.technical_analysis.pattern_confidence * 0.2 else 0) +
    (if a.fundamental_data.market_cap > 1000000000 then (0.2 : ℚ) else 0) +
    (if a.stock_structure.shares_outstanding > 0 then (0.2 : ℚ) else 0)
  min cf 1

/-- `CompositeScorer.calculate_composite_score` (fault-free run; every
operation in the body is total on well-typed snapshots, so the outer
`except` branch that would return the all-zero "unknown" record is
unreachable).  Weights are a parameter, per the input contract. -/
def calculate_composite_score (a : StockAnalysis) (w : Weights) (now : Nat) :
    CompositeScore :=
  let social_score := score_sentiment a.social_sentiment
  let technical_score := score_technical a.technical_analysis
  let fundamental_score := score_fundamental a.fundamental_data
  let analyst_score := score_analyst_coverage a.analyst_coverage
  let structure_score := score_stock_structure a.stock_structure
  let total_score :=
    social_score * w.social + technical_score * w.technical +
    fundamental_score * w.fundamental + analyst_score * w.analyst +
    structure_score * w.struct
  { total_score := total_score
    social_score := social_score
    technical_score := technical_score
    fundamental_score := fundamental_score
    analyst_score := analyst_score
    structure_score := structure_score
    risk_level := determine_risk_level a total_score
    opportunity_type := determine_opportunity_type a
    confidence_level := calculate_confidence a
    timestamp := now }

/-- `calculate_composite_score` in a run where the social scorer's body
raised after `k` of its accumulation statements: `score_sentiment`'s
internal `except` handler returns the clamped partial sum
(`score_sentiment_upto`), the value reaches the aggregator normally, and
aggregation proceeds with the other components unchanged. -/
def calculate_composite_score_social_upto (a : StockAnalysis) (w : Weights)
    (now : Nat) (k : Nat) : CompositeScore :=
  let social_score := score_sentiment_upto a.social_sentiment k
  let technical_score := score_technical a.technical_analysis
  let fundamental_score := score_fundamental a.fundamental_data
  let analyst_score := score_analyst_coverage a.analyst_coverage
  let structure_score := score_stock_structure a.stock_structure
  let total_score :=
    social_score * w.social + technical_score * w.technical +
    fundamental_score * w.fundamental + analyst_score * w.analyst +
    structure_score * w.struct
  { total_score := total_score
    social_score := social_score
    technical_score := technical_score
    fundamental_score := fundamental_score
    analyst_score := analyst_score
    structure_score := structure_score
    risk_level := determine_risk_level a total_score
    opportunity_type := determine_opportunity_type a
    confidence_level := calculate_confidence a
    timestamp := now }

/-- `RetailVsInstitutionalAnalyzer.detect_sentiment_divergence`.  Both
branches compute `int(analyst.consensus_rating.value)` on a non-numeric
enum string before building their signal, so whenever a branch's condition
holds the body raises `ValueError` (`pyInt` returns `none`), modelled as
`Except.error`. -/
def detect_sentiment_divergence (social : SocialSentiment)
    (analyst : AnalystCoverage) (now : Nat) :
    Except Unit (List DivergenceSignal) :=
  if social.sentiment_score > 0.4 ∧
     (analyst.consensus_rating = .sell ∨ analyst.consensus_rating = .strong_sell) then
    match pyInt analyst.consensus_rating.value with
    | none => .error ()
    | some n =>
      .ok [{ symbol := ""
             divergence_type := .retail_bullish_inst_bearish
             strength := min (social.sentiment_score + ((5 : ℚ) - n) / 5) 1
             confidence := if analyst.num_analysts > 5 then 0.7 else 0.5
             description := "High retail optimism (sentiment: " ++
               fmt social.sentiment_score ++ ") vs analyst pessimism"
             catalyst := some "Retail FOMO vs institutional concerns"
             timeframe := "short"
             risk_level := "high"
             expected_move := some (-10)
             timestamp := now
             supporting_factors :=
               [ "Retail sentiment: " ++ fmt social.sentiment_score
               , "Analyst rating: " ++ analyst.consensus_rating.value
               , "Social mentions: " ++ toString social.mentions ]
             warning_factors :=
               [ "Potential bubble formation"
               , "Institutional selling pressure"
               , "Overvaluation risk" ] }]
  else if social.sentiment_score < -0.3 ∧
          (analyst.consensus_rating = .buy ∨ analyst.consensus_rating = .strong_buy) then
    match pyInt analyst.consensus_rating.value with
    | none => .error ()
    | some n =>
      .ok [{ symbol := ""
             divergence_type := .retail_bearish_inst_bullish
             strength := min (|social.sentiment_score| + (n : ℚ) / 5) 1
             confidence := if analyst.num_analysts > 8 then 0.8 else 0.6
             description := "Retail pessimism (sentiment: " ++
               fmt social.sentiment_score ++ ") vs analyst optimism"
             catalyst := some "Institutional accumulation opportunity"
             timeframe := "medium"
             risk_level := "medium"
             expected_move := some (analyst.price_target_upside * 0.7)
             timestamp := now
             supporting_factors :=
               [ "Strong analyst consensus: " ++ analyst.consensus_rating.value
               , "Price target upside: " ++ fmt analyst.price_target_upside ++ "%"
               , "Low retail interest: " ++ toString social.mentions ++ " mentions" ]
             warning_factors :=
               [ "Need catalysts for retail adoption"
               , "May take time to materialize" ] }]
  else
    .ok []

/-- `ShortSqueezeDetector._calculate_squeeze_strength`: short-interest
component capped at 0.4, sentiment component, mention-volume tiers,
volume-spike bonus, capped at 1. -/
def calculate_squeeze_strength (social : SocialSentiment)
    (structure_ : StockStructure) (technical : TechnicalAnalysis) : ℚ :=
  let score :=
    min (structure_.short_interest / 50) 0.4 +
    max 0 social.sentiment_score * 0.3 +
    (if social.mentions > 500 then (0.2 : ℚ)
     else if social.mentions > 200 then 0.15
     else if social.mentions > 100 then 0.1
     else 0) +
    (if technical.volume_spike then (0.1 : ℚ) else 0)
  min score 1

/-- `ShortSqueezeDetector.detect_squeeze_setup`.  When the squeeze criteria
hold, the warning-factor computation evaluates
`float_shares / shares_outstanding`, which in Python raises
`ZeroDivisionError` when `shares_outstanding` is zero; that raise happens
before the signal is appended, so it is modelled as `Except.error`. -/
def detect_squeeze_setup (social : SocialSentiment)
    (structure_ : StockStructure) (technical : TechnicalAnalysis) (now : Nat) :
    Except Unit (List DivergenceSignal) :=
  let high_utilization := pyOrZero structure_.utilization_rate > 80
  if structure_.short_interest > 15 ∧ social.mentions > 100 ∧
     social.sentiment_score > 0.2 then
    if structure_.shares_outstanding = 0 then .error ()
    else
      let strength := calculate_squeeze_strength social structure_ technical
      let timeframe := if social.volume_trend = .bullish then "short" else "medium"
      let risk_level := if structure_.short_interest > 30 then "high" else "medium"
      let expected_move := min (structure_.short_interest * 2) 100
      let supporting_factors :=
        [ "Short interest: " ++ fmt structure_.short_interest ++ "%"
        , "Social mentions: " ++ toString social.mentions
        , "Sentiment: " ++ fmt social.sentiment_score ] ++
        (if high_utilization then
          ["Utilization: " ++ fmt (structure_.utilization_rate.getD 0) ++ "%"] else []) ++
        (if qTruthy structure_.cost_to_borrow ∧ structure_.cost_to_borrow.getD 0 > 10 then
          ["Cost to borrow: " ++ fmt (structure_.cost_to_borrow.getD 0) ++ "%"] else []) ++
        (if technical.volume_spike then ["Volume spike detected"] else [])
      let warning_factors :=
        [ "High volatility expected"
        , "Risk of rapid reversal"
        , "Timing is crucial" ] ++
        (if structure_.float_shares / structure_.shares_outstanding > 0.8 then
          ["Large float may limit squeeze"] else [])
      .ok [{ symbol := ""
             divergence_type := .squeeze_setup
             strength := strength
             confidence := 0.6 + (if high_utilization then (0.3 : ℚ) else 0) +
               (if technical.volume_spike then (0.1 : ℚ) else 0)
             description := "Short squeeze setup: " ++ fmt structure_.short_interest ++
               "% SI, " ++ toString social.mentions ++ " mentions"
             catalyst := some "Retail buying pressure vs short covering"
             timeframe := timeframe
             risk_level := risk_level
             expected_move := some expected_move
             timestamp := now
             supporting_factors := supporting_factors
             warning_factors := warning_factors }]
  else
    .ok []

/-- `MomentumDivergenceDetector.detect_momentum_divergence`; the body is
total, so no `Except` is needed. -/
def detect_momentum_divergence (social : SocialSentiment)
    (technical : TechnicalAnalysis) (_analyst : AnalystCoverage) (now : Nat) :
    List DivergenceSignal :=
  if social.sentiment_score > 0.6 ∧ social.volume_trend = .bullish ∧
     technical.trend_direction ≠ .bullish then
    [{ symbol := ""
       divergence_type := .momentum_divergence
       strength := 0.7
       confidence := 0.6
       description := "Strong social momentum not confirmed by technical analysis"
       catalyst := some "Social media hype"
       timeframe := "short"
       risk_level := "high"
       expected_move := none
       timestamp := now
       supporting_factors :=
         [ "Social sentiment: " ++ fmt social.sentiment_score
         , "Social trend: " ++ social.volume_trend.value
         , "Mentions: " ++ toString social.mentions ]
       warning_factors :=
         [ "Technical indicators not supportive"
         , "Momentum may be artificial"
         , "Risk of rapid reversal" ] }]
  else []

/-- `ValueTrapDetector.detect_value_trap`; `appears_cheap` and
`declining_business` use Python truthiness on the optional ratios; the
body is total. -/
def detect_value_trap (fundamental : FundamentalData)
    (analyst : AnalystCoverage) (_technical : TechnicalAnalysis) (now : Nat) :
    List DivergenceSignal :=
  let appears_cheap :=
    (qTruthy fundamental.pe ∧ fundamental.pe.getD 0 < 15) ∨
    (qTruthy fundamental.ps ∧ fundamental.ps.getD 0 < 2)
  let declining_business :=
    (qTruthy fundamental.revenue_growth_yoy ∧ fundamental.revenue_growth_yoy.getD 0 < -10) ∨
    (qTruthy fundamental.profit_margin ∧ fundamental.profit_margin.getD 0 < 0)
  let analyst_concerns := analyst.recent_downgrades > analyst.recent_upgrades
  if appears_cheap ∧ (declining_business ∨ analyst_concerns) then
    [{ symbol := ""
       divergence_type := .value_trap
       strength := 0.6
       confidence := 0.7
       description := "Appears cheap but fundamental issues present"
       catalyst := some "Business deterioration"
       timeframe := "long"
       risk_level := "medium"
       expected_move := some (-15)
       timestamp := now
       supporting_factors :=
         [ (if qTruthy fundamental.pe then "P/E ratio: " ++ fmt (fundamental.pe.getD 0)
            else "Low P/S ratio")
         , "Recent downgrades: " ++ toString analyst.recent_downgrades ]
       warning_factors :=
         [ "Declining fundamentals"
         , "Analyst skepticism"
         , "Value may be deserved" ] }]
  else []

/-- `HiddenGemDetector.detect_hidden_gem`; truthiness as above; the body is
total. -/
def detect_hidden_gem (social : SocialSentiment)
    (fundamental : FundamentalData) (analyst : AnalystCoverage) (now : Nat) :
    List DivergenceSignal :=
  let good_fundamentals :=
    (qTruthy fundamental.revenue_growth_yoy ∧ fundamental.revenue_growth_yoy.getD 0 > 15) ∧
    (qTruthy fundamental.profit_margin ∧ fundamental.profit_margin.getD 0 > 10) ∧
    (qTruthy fundamental.roe ∧ fundamental.roe.getD 0 > 15)
  let strong_analyst_support :=
    (analyst.consensus_rating = .buy ∨ analyst.consensus_rating = .strong_buy) ∧
    analyst.price_target_upside > 20
  let low_retail_attention :=
    social.mentions < 50 ∧ |social.sentiment_score| < 0.3
  if good_fundamentals ∧ strong_analyst_support ∧ low_retail_attention then
    [{ symbol := ""
       divergence_type := .hidden_gem
       strength := 0.8
       confidence := 0.8
       description := "Strong fundamentals and analyst support with low retail attention"
       catalyst := some "Institutional accumulation"
       timeframe := "long"
       risk_level := "low"
       expected_move := some (analyst.price_target_upside * 0.8)
       timestamp := now
       supporting_factors :=
         [ "Revenue growth: " ++ fmt (fundamental.revenue_growth_yoy.getD 0) ++ "%"
         , "ROE: " ++ fmt (fundamental.roe.getD 0) ++ "%"
         , "Price target upside: " ++ fmt analyst.price_target_upside ++ "%"
         , "Analyst rating: " ++ analyst.consensus_rating.value ]
       warning_factors :=
         [ "May take time for market recognition"
         , "Requires patience" ] }]
  else []

/-- `DivergenceDetector.detect_all_divergences`.  The source wraps ALL five
detector calls and the symbol-stamping loop in one `try/except` that logs
and returns the accumulated list: an exception in a detector therefore
skips every later detector and the stamping, but the signals gathered
before the exception are still returned.  Only the first two detectors can
raise (see their definitions); the remaining three are total. -/
def detect_all_divergences (a : StockAnalysis) (now : Nat) :
    List DivergenceSignal :=
  match detect_sentiment_divergence a.social_sentiment a.analyst_coverage now with
  | .error _ => []
  | .ok s1 =>
    match detect_squeeze_setup a.social_sentiment a.stock_structure
        a.technical_analysis now with
    | .error _ => s1
    | .ok s2 =>
      let s3 := detect_momentum_divergence a.social_sentiment
        a.technical_analysis a.analyst_coverage now
      let s4 := detect_value_trap a.fundamental_data a.analyst_coverage
        a.technical_analysis now
      let s5 := detect_hidden_gem a.social_sentiment a.fundamental_data
        a.analyst_coverage now
      (s1 ++ s2 ++ s3 ++ s4 ++ s5).map (fun s => { s with symbol := a.symbol })

/-- Type multipliers from `rank_signals_by_importance` (dict lookup with
default 1.0; `oversold_reversal` is not in the dict). -/
def typeMultiplier : DivergenceType → ℚ
  | .squeeze_setup => 1.5
  | .hidden_gem => 1.3
  | .retail_bearish_inst_bullish => 1.2
  | .momentum_divergence => 1.0
  | .retail_bullish_inst_bearish => 0.8
  | .value_trap => 0.7
  | .hype_bubble => 0.6
  | .oversold_reversal => 1.0

/-- Risk adjustments from `rank_signals_by_importance` (dict lookup with
default 1.0). -/
def riskAdjustment (risk : String) : ℚ :=
  if risk = "low" then 1.2
  else if risk = "medium" then 1.0
  else if risk = "high" then 0.8
  else 1.0

/-- `signal_importance` inside `rank_signals_by_importance`. -/
def signal_importance (s : DivergenceSignal) : ℚ :=
  (s.strength + s.confidence) / 2 * typeMultiplier s.divergence_type *
    riskAdjustment s.risk_level

/-- One insertion step of a stable descending sort by `signal_importance`:
`x` (which occurs earlier in the input than everything in the list) is
placed before the first element of not-greater importance, so equal
importance keeps input order. -/
def rankInsert (x : DivergenceSignal) : List DivergenceSignal → List DivergenceSignal
  | [] => [x]
  | y :: ys =>
    if signal_importance x < signal_importance y then y :: rankInsert x ys
    else x :: y :: ys

/-- `DivergenceDetector.rank_signals_by_importance`: Python
`sorted(signals, key=signal_importance, reverse=True)`, i.e. THE stable
descending sort by importance, realised as a stable insertion sort. -/
def rank_signals_by_importance : List DivergenceSignal → List DivergenceSignal
  | [] => []
  | x :: xs => rankInsert x (rank_signals_by_importance xs)

/-- `StockAnalyzer._get_default_social_sentiment`. -/
def default_social_sentiment : SocialSentiment :=
  { platform := "aggregated"
    mentions := 0
    sentiment_score := 0
    volume_trend := .neutral
    top_keywords := []
    influencer_mentions := 0 }

/-- `StockAnalyzer._get_default_technical_analysis`. -/
def default_technical_analysis : TechnicalAnalysis :=
  { price := 0
    volume := 0
    rsi := 50
    macd_signal := "neutral"
    bollinger_position := 0.5
    moving_averages := []
    support_resistance := []
    pattern_detected := none
    pattern_confidence := 0
    trend_direction := .neutral
    volume_spike := false }

/-- `StockAnalyzer._get_default_fundamental_data`: market cap 0, every
optional field absent. -/
def default_fundamental_data : FundamentalData :=
  { market_cap := 0
    pe := none
    ps := none
    revenue_growth_yoy := none
    profit_margin := none
    debt_to_equity := none
    current_r := none
    roe := none
    free_cash_flow := none
    enterprise_value := none
    book_value := none }

/-- `StockAnalyzer._get_default_analyst_coverage`. -/
def default_analyst_coverage : AnalystCoverage :=
  { consensus_rating := .hold
    num_analysts := 0
    avg_price_target := 0
    high_price_target := 0
    low_price_target := 0
    price_target_upside := 0
    recent_upgrades := 0
    recent_downgrades := 0
    analyst_firms := [] }

/-- `StockAnalyzer._get_default_stock_structure`. -/
def default_stock_structure : StockStructure :=
  { shares_outstanding := 0
    float_shares := 0
    short_interest := 0
    short_r := 0
    cost_to_borrow := none
    utilization_rate := none
    institutional_ownership := 0
    insider_ownership := 0
    days_to_cover := none
    short_squeeze_score := 0 }

/-- The outcome of the five-provider fan-out
(`asyncio.gather(..., return_exceptions=True)` in `analyze_stock`): each
provider independently either returned a snapshot or raised. -/
structure ProviderOutcomes where
  social : Except Unit SocialSentiment
  technical : Except Unit TechnicalAnalysis
  fundamental : Except Unit FundamentalData
  analyst : Except Unit AnalystCoverage
  struct : Except Unit StockStructure

/-- A chart-image collaborator: `urlFor(symbol, alertType)` that may fail
(`none`), in which case `_convert_signals_to_alerts` substitutes the fixed
fallback template. -/
def ChartProvider : Type := String → String → Option String

/-- `StockAnalyzer._convert_signals_to_alerts`.  For each signal: priority
from strength and total score; chart URL with fallback; the five catalyst
fields by case-insensitive substring match on `signal.catalyst.lower()` —
which raises `AttributeError` when `catalyst` is `None`, aborting the
whole conversion (modelled as `Except.error`). -/
def convert_signals_to_alerts (symbol : String) (total_score : ℚ)
    (chart : ChartProvider) (now : Nat) :
    List DivergenceSignal → Except Unit (List StockAlert)
  | [] => .ok []
  | s :: rest =>
    let priority :=
      if s.strength > 0.8 ∧ total_score > 70 then "high"
      else if s.strength > 0.6 ∧ total_score > 50 then "medium"
      else "low"
    let url :=
      match chart symbol s.divergence_type.value with
      | some u => u
      | none => "https://chart-img.com/chart/" ++ pyUpper symbol
    match s.catalyst with
    | none => .error ()
    | some c =>
      let lc := pyLower c
      let alert : StockAlert :=
        { symbol := symbol
          alert_type := s.divergence_type.value
          score := total_score
          trigger_reason := s.description
          priority := priority
          social_catalyst := if strContains lc "social" then some c else none
          technical_catalyst := if strContains lc "technical" then some c else none
          fundamental_catalyst := if strContains lc "fundamental" then some c else none
          analyst_catalyst := if strContains lc "analyst" then some c else none
          structure_catalyst := if strContains lc "short" then some c else none
          timestamp := now
          chart_image_url := some url }
      match convert_signals_to_alerts symbol total_score chart now rest with
      | .error e => .error e
      | .ok more => .ok (alert :: more)

/-- `StockAnalyzer.analyze_stock` after the fan-out: substitute the
domain default for each failed provider, assemble the `StockAnalysis`,
compute the composite score, detect divergences, convert them to alerts.
The outer `try/except` returns `None` if an uncaught exception escapes
(in this embedding only the alert conversion can raise). -/
def analyze_stock (symbol company_name : String) (p : ProviderOutcomes)
    (w : Weights) (chart : ChartProvider) (now : Nat) : Option StockAnalysis :=
  let social := match p.social with | .ok s => s | .error _ => default_social_sentiment
  let technical := match p.technical with | .ok t => t | .error _ => default_technical_analysis
  let fundamental := match p.fundamental with | .ok f => f | .error _ => default_fundamental_data
  let analyst := match p.analyst with | .ok a => a | .error _ => default_analyst_coverage
  let structure_ := match p.struct with | .ok s => s | .error _ => default_stock_structure
  let a0 : StockAnalysis :=
    { symbol := symbol
      company_name := if company_name = "" then symbol else company_name
      sector := "Unknown"
      industry := "Unknown"
      social_sentiment := social
      technical_analysis := technical
      fundamental_data := fundamental
      analyst_coverage := analyst
      stock_structure := structure_
      composite_score := none
      alerts := []
      last_updated := now }
  let cs := calculate_composite_score a0 w now
  let a1 := { a0 with composite_score := some cs }
  let signals := detect_all_divergences a1 now
  match convert_signals_to_alerts symbol cs.total_score chart now signals with
  | .error _ => none
  | .ok alerts => some { a1 with alerts := alerts }

/-- Specification-side definition (§4.2 of the spec): the six opportunity
rules as an explicit ordered list of (predicate, label) pairs, first match
wins, `"general"` as fallback. -/
def oppRules : List ((StockAnalysis → Bool) × String) :=
  [ (fun a => decide (a.stock_structure.short_interest > 20 ∧
      a.social_sentiment.sentiment_score > 0.3 ∧
      a.social_sentiment.mentions > 100), "short_squeeze")
  , (fun a => decide (a.social_sentiment.sentiment_score > 0.5 ∧
      a.technical_analysis.trend_direction = .bullish ∧
      a.technical_analysis.volume_spike), "momentum")
  , (fun a => decide (qTruthy a.fundamental_data.pe ∧
      a.fundamental_data.pe.getD 0 < 20 ∧
      (a.analyst_coverage.consensus_rating = .buy ∨
       a.analyst_coverage.consensus_rating = .strong_buy)), "value")
  , (fun a => decide (qTruthy a.fundamental_data.revenue_growth_yoy ∧
      a.fundamental_data.revenue_growth_yoy.getD 0 > 20 ∧
      a.analyst_coverage.price_target_upside > 15), "growth")
  , (fun a => decide (a.social_sentiment.sentiment_score < -0.3 ∧
      (a.analyst_coverage.consensus_rating = .buy ∨
       a.analyst_coverage.consensus_rating = .strong_buy)), "contrarian")
  , (fun _ => true, "general") ]

/-- Specification-side evaluation of the ordered rule list: the label of
the first matching rule. -/
def firstMatchOpp (a : StockAnalysis) : String :=
  match oppRules.find? (fun pr => pr.1 a) with
  | some pr => pr.2
  | none => "general"

/-- The short-squeeze predicate as named by claim C3 (spec §4.2):
short_interest > 20, sentiment > 0.3, mentions > 100. -/
def oppSqueezePredS (a : StockAnalysis) : Bool :=
  decide (a.stock_structure.short_interest > 20 ∧
    a.social_sentiment.sentiment_score > 0.3 ∧
    a.social_sentiment.mentions > 100)

/-- The momentum predicate of `_determine_opportunity_type` (spec §4.2):
sentiment > 0.5, bullish technical trend, volume spike. -/
def oppMomentumPredS (a : StockAnalysis) : Bool :=
  decide (a.social_sentiment.sentiment_score > 0.5 ∧
    a.technical_analysis.trend_direction = .bullish ∧
    a.technical_analysis.volume_spike)

/-- Specification-side squeeze strength, written exactly as the spec/claim
C4 words it: `0.4×min(short_interest/50, 1) + 0.3×max(sentiment, 0) +
mention-volume tier (≤ 0.2) + 0.1 if volume spike, capped at 1`. -/
def claimedSqueezeStrength (social : SocialSentiment)
    (structure_ : StockStructure) (technical : TechnicalAnalysis) : ℚ :=
  min (0.4 * min (structure_.short_interest / 50) 1 +
    0.3 * max social.sentiment_score 0 +
    (if social.mentions > 500 then (0.2 : ℚ)
     else if social.mentions > 200 then 0.15
     else if social.mentions > 100 then 0.1
     else 0) +
    (if technical.volume_spike then (0.1 : ℚ) else 0)) 1

/-- Helper: does an `Except` carry an error? -/
def exceptFailed : Except Unit (List DivergenceSignal) → Bool
  | .error _ => true
  | .ok _ => false

/-- Erase the wall-clock stamp of a `CompositeScore` (for statements about
equality of runs up to timestamps). -/
def clearCS (cs : CompositeScore) : CompositeScore := { cs with timestamp := 0 }

/-- Erase the wall-clock stamp of a `DivergenceSignal`. -/
def clearSig (s : DivergenceSignal) : DivergenceSignal := { s with timestamp := 0 }

/-- Erase the wall-clock stamp of a `StockAlert`. -/
def clearAlert (al : StockAlert) : StockAlert := { al with timestamp := 0 }

/-- A chart collaborator that always fails (exercises the fallback URL). -/
def chNone : ChartProvider := fun _ _ => none

/-- All five providers succeed with the documented neutral defaults. -/
def pDefault : ProviderOutcomes :=
  ⟨.ok default_social_sentiment, .ok default_technical_analysis,
   .ok default_fundamental_data, .ok default_analyst_coverage,
   .ok default_stock_structure⟩

/-- Concrete social snapshot: bullish retail with sentiment 0.5 and 500
mentions. -/
def exSocC1 : SocialSentiment := ⟨"reddit", 500, mkRat 1 2, .bullish, [], 0⟩

/-- Concrete analyst snapshot with a sell consensus (makes the first
detector's branch fire, hence raise). -/
def exAnC1 : AnalystCoverage := ⟨.sell, 10, 0, 0, 0, 0, 0, 0, []⟩

/-- Concrete structure snapshot: 25% short interest, nonzero shares. -/
def exStC1 : StockStructure := ⟨100, 50, 25, 1, none, none, 0, 0, none, 70⟩

/-- Concrete neutral technical snapshot. -/
def exTeC1 : TechnicalAnalysis :=
  ⟨10, 0, 50, "neutral", mkRat 1 2, [], [], none, 0, .neutral, false⟩

/-- Assembled analysis: first detector raises, squeeze detector would emit
one signal. -/
def exAC1 : StockAnalysis :=
  ⟨"GME", "GameStop", "Unknown", "Unknown", exSocC1, exTeC1,
   default_fundamental_data, exAnC1, exStC1, none, [], 0⟩

/-- Social snapshot whose first two scorer steps contribute 40 and 30. -/
def exSocC2 : SocialSentiment := ⟨"reddit", 1001, 1, .bullish, [], 0⟩

/-- Analysis carrying `exSocC2` (for the faulted-scorer aggregation run). -/
def exAC2 : StockAnalysis :=
  ⟨"GME", "", "", "", exSocC2, exTeC1, default_fundamental_data, exAnC1,
   exStC1, none, [], 0⟩

/-- Social snapshot satisfying both the squeeze and momentum predicates
together with `exTeC3`/`exStC1`. -/
def exSocC3 : SocialSentiment := ⟨"reddit", 200, mkRat 3 5, .bullish, [], 0⟩

/-- Technical snapshot with bullish trend and volume spike. -/
def exTeC3 : TechnicalAnalysis :=
  ⟨10, 0, 50, "neutral", mkRat 1 2, [], [], none, 0, .bullish, true⟩

/-- Analysis matching both the short_squeeze and momentum opportunity
rules. -/
def exAC3 : StockAnalysis :=
  ⟨"GME", "", "", "", exSocC3, exTeC3, default_fundamental_data, exAnC1,
   exStC1, none, [], 0⟩

/-- Social snapshot with 150 mentions and sentiment 0.3. -/
def exSocC4 : SocialSentiment := ⟨"x", 150, mkRat 3 10, .neutral, [], 0⟩

/-- Structure snapshot with 20% short interest. -/
def exStC4 : StockStructure := ⟨100, 50, 20, 1, none, none, 0, 0, none, 0⟩

/-- Signals actually constructible by the five detectors: the divergence
type is never `hype_bubble` or `oversold_reversal`, and the catalyst
string is always populated. -/
def goodSig (g : DivergenceSignal) : Bool :=
  (g.divergence_type != .hype_bubble && g.divergence_type != .oversold_reversal) &&
    g.catalyst.isSome

/-- C8 witness social snapshot (mentions/sentiment as in the spec example). -/
def exSocC8 : SocialSentiment := ⟨"reddit", 500, 0.4, .bullish, ["moon"], 25⟩

/-- C8 witness technical snapshot (neutral trend, volume spike). -/
def exTeC8 : TechnicalAnalysis :=
  ⟨100, 0, 50, "bullish", mkRat 1 2, [], [], none, 0, .neutral, true⟩

/-- C8 witness fundamental snapshot (strong financials, P/E 10). -/
def exFuC8 : FundamentalData :=
  ⟨2000000000, some 10, some 1, some 30, some 25, some (mkRat 1 5), some 3,
   some 25, none, none, none⟩

/-- C8 witness analyst snapshot (strong buy, 12 analysts, 30% upside). -/
def exAnC8 : AnalystCoverage := ⟨.strong_buy, 12, 0, 0, 0, 30, 3, 1, []⟩

/-- C8 witness structure snapshot (25% short interest, squeeze score 70). -/
def exStC8 : StockStructure := ⟨1000, 200, 25, 1, some 15, some 85, 0, 0, none, 70⟩

/-- C8 witness provider outcomes: all five providers succeed. -/
def pC8 : ProviderOutcomes := ⟨.ok exSocC8, .ok exTeC8, .ok exFuC8, .ok exAnC8, .ok exStC8⟩

/-- C8 counterexample: carries the three snapshots specified by the claim
(mentions=500, sentiment=0.4; volume_spike, neutral trend;
short_interest=25, squeeze score 70) but adversarial remaining fields. -/
def exSocC8b : SocialSentiment := ⟨"reddit", 500, 0.4, .bearish, ["dump"], 0⟩

/-- C8 counterexample technical snapshot (overbought RSI, junk MACD). -/
def exTeC8b : TechnicalAnalysis :=
  ⟨100, 0, 85, "x", mkRat 9 10, [], [], none, 0, .neutral, true⟩

/-- C8 counterexample analyst snapshot (strong sell, -50% upside, 5
downgrades). -/
def exAnC8b : AnalystCoverage := ⟨.strong_sell, 0, 0, 0, 0, -50, 0, 5, []⟩

/-- C8 counterexample structure snapshot (large float). -/
def exStC8b : StockStructure := ⟨1000, 900, 25, 1, none, none, 0, 0, none, 70⟩

/-- C8 counterexample provider outcomes. -/
def pC8b : ProviderOutcomes :=
  ⟨.ok exSocC8b, .ok exTeC8b, .ok default_fundamental_data, .ok exAnC8b, .ok exStC8b⟩

lemma pyClamp_nonneg (x : ℚ) : 0 ≤ pyClamp x := le_max_left 0 _

lemma pyClamp_le_100 (x : ℚ) : pyClamp x ≤ 100 :=
  max_le (by norm_num) (min_le_right x 100)

lemma score_sentiment_bounds (s : SocialSentiment) :
    0 ≤ score_sentiment s ∧ score_sentiment s ≤ 100 := by
  unfold score_sentiment
  exact ⟨pyClamp_nonneg _, pyClamp_le_100 _⟩

lemma score_technical_bounds (t : TechnicalAnalysis) :
    0 ≤ score_technical t ∧ score_technical t ≤ 100 := by
  unfold score_technical
  exact ⟨pyClamp_nonneg _, pyClamp_le_100 _⟩

lemma score_fundamental_bounds (f : FundamentalData) :
    0 ≤ score_fundamental f ∧ score_fundamental f ≤ 100 := by
  unfold score_fundamental
  exact ⟨pyClamp_nonneg _, pyClamp_le_100 _⟩

lemma score_analyst_bounds (a : AnalystCoverage) :
    0 ≤ score_analyst_coverage a ∧ score_analyst_coverage a ≤ 100 := by
  unfold score_analyst_coverage
  exact ⟨pyClamp_nonneg _, pyClamp_le_100 _⟩

lemma score_structure_bounds (s : StockStructure) :
    0 ≤ score_stock_structure s ∧ score_stock_structure s ≤ 100 := by
  unfold score_stock_structure
  exact ⟨pyClamp_nonneg _, pyClamp_le_100 _⟩

/-- C7: every domain scorer is total and returns a value in [0,100]; in
particular the fundamental scorer on the all-optional-fields-absent
snapshot (the documented neutral default) returns the finite value 9
(valuation only: P/E absent scores 1, P/S absent scores 5, no growth,
profitability or health contribution), and the analyst scorer's downgrade
penalty cannot push the clamped result below 0. -/
theorem C7_theorem :
    (∀ s : SocialSentiment, 0 ≤ score_sentiment s ∧ score_sentiment s ≤ 100) ∧
    (∀ t : TechnicalAnalysis, 0 ≤ score_technical t ∧ score_technical t ≤ 100) ∧
    (∀ f : FundamentalData, 0 ≤ score_fundamental f ∧ score_fundamental f ≤ 100) ∧
    (∀ a : AnalystCoverage, 0 ≤ score_analyst_coverage a ∧ score_analyst_coverage a ≤ 100) ∧
    (∀ s : StockStructure, 0 ≤ score_stock_structure s ∧ score_stock_structure s ≤ 100) ∧
    score_fundamental default_fundamental_data = 9 := by
  refine ⟨score_sentiment_bounds, score_technical_bounds, score_fundamental_bounds,
    score_analyst_bounds, score_structure_bounds, ?_⟩
  norm_num [score_fundamental, default_fundamental_data, score_pe, score_ps, pyClamp]

lemma rankInsert_perm (x : DivergenceSignal) (l : List DivergenceSignal) :
    List.Perm (rankInsert x l) (x :: l) := by
  induction l with
  | nil => simp [rankInsert]
  | cons y ys ih =>
    unfold rankInsert
    split
    · exact ((ih.cons y).trans (List.Perm.swap x y ys))
    · exact List.Perm.refl _

lemma rank_perm (l : List DivergenceSignal) :
    List.Perm (rank_signals_by_importance l) l := by
  induction l with
  | nil => simp [rank_signals_by_importance]
  | cons x xs ih =>
    unfold rank_signals_by_importance
    exact (rankInsert_perm x _).trans (ih.cons x)

lemma mem_rankInsert {z x : DivergenceSignal} {l : List DivergenceSignal} :
    z ∈ rankInsert x l ↔ z = x ∨ z ∈ l := by
  rw [(rankInsert_perm x l).mem_iff, List.mem_cons]

lemma rankInsert_pairwise (x : DivergenceSignal) (l : List DivergenceSignal)
    (h : l.Pairwise (fun a b => signal_importance b ≤ signal_importance a)) :
    (rankInsert x l).Pairwise (fun a b => signal_importance b ≤ signal_importance a) := by
  induction l with
  | nil => simp [rankInsert]
  | cons y ys ih =>
    rw [List.pairwise_cons] at h
    obtain ⟨hy, hys⟩ := h
    unfold rankInsert
    split
    · rename_i hlt
      rw [List.pairwise_cons]
      refine ⟨?_, ih hys⟩
      intro b hb
      rcases mem_rankInsert.mp hb with hbx | hbys
      · exact hbx ▸ le_of_lt hlt
      · exact hy b hbys
    · rename_i hge
      rw [List.pairwise_cons]
      refine ⟨?_, List.pairwise_cons.mpr ⟨hy, hys⟩⟩
      intro b hb
      rcases List.mem_cons.mp hb with hby | hbys
      · exact hby ▸ not_lt.mp hge
      · exact le_trans (hy b hbys) (not_lt.mp hge)

lemma rank_pairwise (l : List DivergenceSignal) :
    (rank_signals_by_importance l).Pairwise
      (fun a b => signal_importance b ≤ signal_importance a) := by
  induction l with
  | nil => simp [rank_signals_by_importance]
  | cons x xs ih =>
    unfold rank_signals_by_importance
    exact rankInsert_pairwise x _ ih

lemma rankInsert_filter_pos {x : DivergenceSignal} {v : ℚ}
    (hx : signal_importance x = v) (l : List DivergenceSignal) :
    (rankInsert x l).filter (fun s => signal_importance s == v) =
      x :: l.filter (fun s => signal_importance s == v) := by
  induction l with
  | nil => simp [rankInsert, List.filter, hx]
  | cons y ys ih =>
    unfold rankInsert
    split
    · rename_i hlt
      have hyv : (signal_importance y == v) = false := by
        rw [beq_eq_false_iff_ne]
        intro hyv
        rw [hx] at hlt
        rw [hyv] at hlt
        exact lt_irrefl v hlt
      simp only [List.filter, hyv, ih]
    · simp [List.filter, hx]

lemma rankInsert_filter_neg {x : DivergenceSignal} {v : ℚ}
    (hx : signal_importance x ≠ v) (l : List DivergenceSignal) :
    (rankInsert x l).filter (fun s => signal_importance s == v) =
      l.filter (fun s => signal_importance s == v) := by
  have hxb : (signal_importance x == v) = false := beq_eq_false_iff_ne.mpr hx
  induction l with
  | nil => simp [rankInsert, List.filter, hxb]
  | cons y ys ih =>
    unfold rankInsert
    split
    · simp only [List.filter, ih]
    · simp only [List.filter, hxb]

lemma rank_stable (l : List DivergenceSignal) (v : ℚ) :
    (rank_signals_by_importance l).filter (fun s => signal_importance s == v) =
      l.filter (fun s => signal_importance s == v) := by
  induction l with
  | nil => simp [rank_signals_by_importance]
  | cons x xs ih =>
    unfold rank_signals_by_importance
    by_cases hx : signal_importance x = v
    · rw [rankInsert_filter_pos hx, ih]
      simp [List.filter, hx]
    · rw [rankInsert_filter_neg hx, ih]
      have hxb : (signal_importance x == v) = false := beq_eq_false_iff_ne.mpr hx
      simp [List.filter, hxb]

/-- C5: `rank_signals_by_importance` returns a permutation of its input in
non-increasing order of `importance = ((strength+confidence)/2) ×
type_multiplier × risk_adjustment`; the sort is stable (the sub-sequence of
signals at each importance level is unchanged), and the multiplier tables
are exactly the fixed lookups of the source. -/
theorem C5_theorem :
    (∀ l : List DivergenceSignal,
      List.Perm (rank_signals_by_importance l) l ∧
      (rank_signals_by_importance l).Pairwise
        (fun a b => signal_importance b ≤ signal_importance a) ∧
      (∀ v : ℚ, (rank_signals_by_importance l).filter
          (fun s => signal_importance s == v) =
        l.filter (fun s => signal_importance s == v))) ∧
    (∀ s : DivergenceSignal, signal_importance s =
      (s.strength + s.confidence) / 2 * typeMultiplier s.divergence_type *
        riskAdjustment s.risk_level) ∧
    typeMultiplier .squeeze_setup = 1.5 ∧ typeMultiplier .hidden_gem = 1.3 ∧
    typeMultiplier .retail_bearish_inst_bullish = 1.2 ∧
    typeMultiplier .momentum_divergence = 1.0 ∧
    typeMultiplier .retail_bullish_inst_bearish = 0.8 ∧
    typeMultiplier .value_trap = 0.7 ∧ typeMultiplier .hype_bubble = 0.6 ∧
    typeMultiplier .oversold_reversal = 1.0 ∧
    riskAdjustment "low" = 1.2 ∧ riskAdjustment "medium" = 1.0 ∧
    riskAdjustment "high" = 0.8 :=
  ⟨fun l => ⟨rank_perm l, rank_pairwise l, rank_stable l⟩,
   fun _ => rfl, rfl, rfl, rfl, rfl, rfl, rfl, rfl, rfl,
   by simp [riskAdjustment], by simp [riskAdjustment],
   by simp [riskAdjustment]⟩

/-- C2 (amended): a domain scorer never raises to its caller — an internal
exception is caught inside the scorer itself, which returns the clamp to
[0,100] of the points accumulated before the fault (0 only when the fault
precedes any accumulation), and aggregation proceeds with the remaining
components unchanged, the total being the weighted sum over the faulted
value. -/
theorem C2_theorem : ∀ (a : StockAnalysis) (w : Weights) (t k : Nat),
    (calculate_composite_score_social_upto a w t k).social_score =
      pyClamp (((sentimentSteps a.social_sentiment).take k).sum) ∧
    0 ≤ (calculate_composite_score_social_upto a w t k).social_score ∧
    (calculate_composite_score_social_upto a w t k).social_score ≤ 100 ∧
    (calculate_composite_score_social_upto a w t k).technical_score =
      score_technical a.technical_analysis ∧
    (calculate_composite_score_social_upto a w t k).fundamental_score =
      score_fundamental a.fundamental_data ∧
    (calculate_composite_score_social_upto a w t k).analyst_score =
      score_analyst_coverage a.analyst_coverage ∧
    (calculate_composite_score_social_upto a w t k).structure_score =
      score_stock_structure a.stock_structure ∧
    (calculate_composite_score_social_upto a w t k).total_score =
      (calculate_composite_score_social_upto a w t k).social_score * w.social +
      score_technical a.technical_analysis * w.technical +
      score_fundamental a.fundamental_data * w.fundamental +
      score_analyst_coverage a.analyst_coverage * w.analyst +
      score_stock_structure a.stock_structure * w.struct ∧
    score_sentiment_upto a.social_sentiment 0 = 0 ∧
    score_sentiment_upto a.social_sentiment
        (sentimentSteps a.social_sentiment).length =
      score_sentiment a.social_sentiment := by
  intro a w t k
  refine ⟨rfl, pyClamp_nonneg _, pyClamp_le_100 _, rfl, rfl, rfl, rfl, rfl, ?_, ?_⟩
  · norm_num [score_sentiment_upto, pyClamp]
  · simp [score_sentiment_upto, score_sentiment, List.take_length]

/-- C2 counterexample: the claim says a faulted scorer's component score is
the default value 0; but a fault in `score_sentiment` after its first two
accumulation statements (on a snapshot with sentiment 1 and 1001 mentions)
yields component score 70, not 0, and that value flows into aggregation. -/
theorem C2_counterexample :
    (calculate_composite_score_social_upto exAC2 defaultWeights 0 2).social_score = 70 ∧
    2 < (sentimentSteps exAC2.social_sentiment).length ∧
    (70 : ℚ) ≠ 0 := by
  refine ⟨?_, by norm_num [sentimentSteps, exAC2, exSocC2], by norm_num⟩
  show score_sentiment_upto exAC2.social_sentiment 2 = 70
  norm_num [score_sentiment_upto, sentimentSteps, exAC2, exSocC2, pyClamp]

/-- C3: `_determine_opportunity_type` is exactly first-match evaluation of
the six rules in the fixed priority order short_squeeze → momentum → value
→ growth → contrarian → general; consequently a snapshot set satisfying
both the short_squeeze predicate (short_interest>20, sentiment>0.3,
mentions>100) and the momentum predicate classifies as "short_squeeze". -/
theorem C3_theorem : ∀ a : StockAnalysis,
    determine_opportunity_type a = firstMatchOpp a ∧
    (oppSqueezePredS a = true → oppMomentumPredS a = true →
      determine_opportunity_type a = "short_squeeze") := by
  intro a
  constructor
  · unfold determine_opportunity_type firstMatchOpp oppRules
    by_cases h1 : a.stock_structure.short_interest > 20 ∧
        a.social_sentiment.sentiment_score > 0.3 ∧
        a.social_sentiment.mentions > 100
    · simp [List.find?, h1]
    · by_cases h2 : a.social_sentiment.sentiment_score > 0.5 ∧
          a.technical_analysis.trend_direction = .bullish ∧
          a.technical_analysis.volume_spike
      · simp [List.find?, h1, h2]
      · by_cases h3 : qTruthy a.fundamental_data.pe ∧
            a.fundamental_data.pe.getD 0 < 20 ∧
            (a.analyst_coverage.consensus_rating = .buy ∨
             a.analyst_coverage.consensus_rating = .strong_buy)
        · simp [List.find?, h1, h2, h3]
        · by_cases h4 : qTruthy a.fundamental_data.revenue_growth_yoy ∧
              a.fundamental_data.revenue_growth_yoy.getD 0 > 20 ∧
              a.analyst_coverage.price_target_upside > 15
          · simp [List.find?, h1, h2, h3, h4]
          · by_cases h5 : a.social_sentiment.sentiment_score < -0.3 ∧
                (a.analyst_coverage.consensus_rating = .buy ∨
                 a.analyst_coverage.consensus_rating = .strong_buy)
            · have h3' : ¬(qTruthy a.fundamental_data.pe = true ∧
                  a.fundamental_data.pe.getD 0 < 20) :=
                fun hc => h3 ⟨hc.1, hc.2, h5.2⟩
              simp [List.find?, h1, h2, h3', h4, h5]
            · simp [List.find?, h1, h2, h3, h4, h5]
  · intro hs _hm
    have hs' := of_decide_eq_true hs
    simp [determine_opportunity_type, hs'.1, hs'.2.1, hs'.2.2]

/-- C3 witness: a concrete analysis satisfying both the squeeze and
momentum predicates classifies as "short_squeeze". -/
theorem C3_witness :
    oppSqueezePredS exAC3 = true ∧ oppMomentumPredS exAC3 = true ∧
    determine_opportunity_type exAC3 = "short_squeeze" := by
  have h1 : oppSqueezePredS exAC3 = true := by
    norm_num [oppSqueezePredS, exAC3, exSocC3, exStC1]
  have h2 : oppMomentumPredS exAC3 = true := by
    norm_num [oppMomentumPredS, exAC3, exSocC3, exTeC3]
  exact ⟨h1, h2, (C3_theorem exAC3).2 h1 h2⟩

/-- C1 (amended): the five detectors run inside a single `try/except`, so
an exception in a detector returns only the signals accumulated before it
(un-stamped) and suppresses every later detector; in particular an
exception in the first detector (RetailVsInstitutional) yields the empty
list, and only when no detector raises is the concatenation of all five
detectors' signals returned, stamped with the asset symbol.
`detect_all_divergences` itself never propagates the exception. -/
theorem C1_theorem : ∀ (a : StockAnalysis) (t : Nat),
    (exceptFailed (detect_sentiment_divergence a.social_sentiment
        a.analyst_coverage t) = true →
      detect_all_divergences a t = []) ∧
    (∀ l1, detect_sentiment_divergence a.social_sentiment a.analyst_coverage t = .ok l1 →
      exceptFailed (detect_squeeze_setup a.social_sentiment a.stock_structure
          a.technical_analysis t) = true →
      detect_all_divergences a t = l1) ∧
    (∀ l1 l2,
      detect_sentiment_divergence a.social_sentiment a.analyst_coverage t = .ok l1 →
      detect_squeeze_setup a.social_sentiment a.stock_structure
          a.technical_analysis t = .ok l2 →
      detect_all_divergences a t =
        (l1 ++ l2 ++
          detect_momentum_divergence a.social_sentiment a.technical_analysis
            a.analyst_coverage t ++
          detect_value_trap a.fundamental_data a.analyst_coverage
            a.technical_analysis t ++
          detect_hidden_gem a.social_sentiment a.fundamental_data
            a.analyst_coverage t).map (fun s => { s with symbol := a.symbol })) := by
  intro a t
  refine ⟨?_, ?_, ?_⟩
  · intro h
    unfold detect_all_divergences
    cases hd : detect_sentiment_divergence a.social_sentiment a.analyst_coverage t with
    | error e => rfl
    | ok l => rw [hd] at h; simp [exceptFailed] at h
  · intro l1 h1 h2
    unfold detect_all_divergences
    rw [h1]
    cases hd : detect_squeeze_setup a.social_sentiment a.stock_structure
        a.technical_analysis t with
    | error e => rfl
    | ok l => rw [hd] at h2; simp [exceptFailed] at h2
  · intro l1 l2 h1 h2
    unfold detect_all_divergences
    rw [h1, h2]

/-- C1 witness: on `exAC1` the first detector raises and
`detect_all_divergences` returns the empty list (via the amended
theorem). -/
theorem C1_witness :
    exceptFailed (detect_sentiment_divergence exAC1.social_sentiment
        exAC1.analyst_coverage 0) = true ∧
    detect_all_divergences exAC1 0 = [] := by
  have hpi : pyInt AnalystRating.sell.value = none := by decide
  have hf : exceptFailed (detect_sentiment_divergence exAC1.social_sentiment
      exAC1.analyst_coverage 0) = true := by
    norm_num [detect_sentiment_divergence, exAC1, exSocC1, exAnC1, hpi, exceptFailed]
  exact ⟨hf, (C1_theorem exAC1 0).1 hf⟩

/-- C1 counterexample: on `exAC1` the ShortSqueeze detector emits exactly
one signal, yet `detect_all_divergences` returns the empty list because the
exception in the first detector (an `int()` call on the rating string)
aborts the whole detection block — the other detectors' signals are NOT
present, contradicting the claim. -/
theorem C1_counterexample :
    ((detect_squeeze_setup exAC1.social_sentiment exAC1.stock_structure
        exAC1.technical_analysis 0).toOption.getD []).length = 1 ∧
    detect_all_divergences exAC1 0 = [] := by
  have hpi : pyInt AnalystRating.sell.value = none := by decide
  have hd1 : detect_sentiment_divergence exAC1.social_sentiment
      exAC1.analyst_coverage 0 = .error () := by
    norm_num [detect_sentiment_divergence, exAC1, exSocC1, exAnC1, hpi]
  constructor
  · norm_num [detect_squeeze_setup, exAC1, exSocC1, exStC1, exTeC1, pyOrZero,
      qTruthy, Except.toOption]
  · simp [detect_all_divergences, hd1]

lemma d1_good (s : SocialSentiment) (an : AnalystCoverage) (t : Nat)
    (l : List DivergenceSignal)
    (h : detect_sentiment_divergence s an t = .ok l) :
    l.all goodSig = true := by
  unfold detect_sentiment_divergence at h
  split at h
  · split at h
    · exact absurd h (by simp)
    · simp only [Except.ok.injEq] at h
      subst h
      simp [goodSig]
  · split at h
    · split at h
      · exact absurd h (by simp)
      · simp only [Except.ok.injEq] at h
        subst h
        simp [goodSig]
    · simp only [Except.ok.injEq] at h
      subst h
      rfl

lemma d2_good (s : SocialSentiment) (st : StockStructure)
    (te : TechnicalAnalysis) (t : Nat) (l : List DivergenceSignal)
    (h : detect_squeeze_setup s st te t = .ok l) :
    l.all goodSig = true := by
  simp only [detect_squeeze_setup] at h
  split at h
  · split at h
    · exact absurd h (by simp)
    · simp only [Except.ok.injEq] at h
      subst h
      simp [goodSig]
  · simp only [Except.ok.injEq] at h
    subst h
    rfl

lemma d3_good (s : SocialSentiment) (te : TechnicalAnalysis)
    (an : AnalystCoverage) (t : Nat) :
    (detect_momentum_divergence s te an t).all goodSig = true := by
  simp only [detect_momentum_divergence]
  split
  · simp [goodSig]
  · rfl

lemma d4_good (f : FundamentalData) (an : AnalystCoverage)
    (te : TechnicalAnalysis) (t : Nat) :
    (detect_value_trap f an te t).all goodSig = true := by
  simp only [detect_value_trap]
  split
  · simp [goodSig]
  · rfl

lemma d5_good (s : SocialSentiment) (f : FundamentalData)
    (an : AnalystCoverage) (t : Nat) :
    (detect_hidden_gem s f an t).all goodSig = true := by
  simp only [detect_hidden_gem]
  split
  · simp [goodSig]
  · rfl

lemma goodSig_stamp (g : DivergenceSignal) (sym : String) :
    goodSig { g with symbol := sym } = goodSig g := rfl

lemma detect_all_good (a : StockAnalysis) (t : Nat) :
    (detect_all_divergences a t).all goodSig = true := by
  unfold detect_all_divergences
  cases h1 : detect_sentiment_divergence a.social_sentiment a.analyst_coverage t with
  | error e => rfl
  | ok l1 =>
    cases h2 : detect_squeeze_setup a.social_sentiment a.stock_structure
        a.technical_analysis t with
    | error e => exact d1_good _ _ _ _ h1
    | ok l2 =>
      simp only [List.all_map, List.all_append, Bool.and_eq_true]
      have hs : (goodSig ∘ fun s : DivergenceSignal => { s with symbol := a.symbol })
          = goodSig := funext fun g => rfl
      rw [hs]
      exact ⟨⟨⟨⟨d1_good _ _ _ _ h1, d2_good _ _ _ _ _ h2⟩, d3_good _ _ _ _⟩,
        d4_good _ _ _ _⟩, d5_good _ _ _ _⟩

/-- C10: no detector ever emits a `hype_bubble` or `oversold_reversal`
signal, so these two enumerated divergence kinds are unreachable in the
output of `detect_all_divergences` for every snapshot set. -/
theorem C10_theorem : ∀ (a : StockAnalysis) (t : Nat),
    (detect_all_divergences a t).all
      (fun g => g.divergence_type != .hype_bubble &&
        g.divergence_type != .oversold_reversal) = true := by
  intro a t
  have h := detect_all_good a t
  rw [List.all_eq_true] at h ⊢
  intro g hg
  have := h g hg
  unfold goodSig at this
  simp only [Bool.and_eq_true] at this
  simp [this.1.1, this.1.2]

/-- C4 (amended): when short_interest>15, mentions>100, sentiment>0.2 and
shares_outstanding is non-zero, the ShortSqueeze detector emits exactly one
signal whose strength is `min(short_interest/50, 0.4) + 0.3×max(sentiment,0)
+ mention tier (≤0.2) + 0.1 if volume spike, capped at 1` — the
short-interest term is capped at 0.4 directly, not `0.4×min(SI/50, 1)` as
the claim words it — with `expected_move = min(2×short_interest, 100)`, and
confidence exactly 0.6 (no boost) when there is no volume spike and
utilization ≤ 80.  (With shares_outstanding = 0 the detector raises
instead.) -/
theorem C4_theorem : ∀ (social : SocialSentiment) (st : StockStructure)
    (te : TechnicalAnalysis) (t : Nat),
    (15 : ℚ) < st.short_interest →
    100 < social.mentions →
    (0.2 : ℚ) < social.sentiment_score →
    st.shares_outstanding ≠ 0 →
    ∃ g, detect_squeeze_setup social st te t = .ok [g] ∧
      g.strength = min
        (min (st.short_interest / 50) 0.4 +
          max 0 social.sentiment_score * 0.3 +
          (if social.mentions > 500 then (0.2 : ℚ)
           else if social.mentions > 200 then 0.15
           else if social.mentions > 100 then 0.1
           else 0) +
          (if te.volume_spike then (0.1 : ℚ) else 0)) 1 ∧
      g.expected_move = some (min (st.short_interest * 2) 100) ∧
      (te.volume_spike = false → pyOrZero st.utilization_rate ≤ 80 →
        g.confidence = 0.6) := by
  intro social st te t h1 h2 h3 h4
  simp only [detect_squeeze_setup]
  rw [if_pos (⟨h1, h2, h3⟩ : _ ∧ _ ∧ _), if_neg h4]
  refine ⟨_, rfl, rfl, rfl, ?_⟩
  intro hsp hut
  simp [hsp, not_lt.mpr hut]

/-- C4 witness: on a concrete qualifying snapshot set the detector emits
exactly one signal with the expected move 40 = min(2×20, 100). -/
theorem C4_witness :
    ∃ g, detect_squeeze_setup exSocC4 exStC4 exTeC1 3 = .ok [g] ∧
      g.expected_move = some 40 ∧ g.confidence = 0.6 := by
  have h1 : (15 : ℚ) < exStC4.short_interest := by norm_num [exStC4]
  have h2 : 100 < exSocC4.mentions := by norm_num [exSocC4]
  have h3 : (0.2 : ℚ) < exSocC4.sentiment_score := by norm_num [exSocC4, exSocC4]
  have h4 : exStC4.shares_outstanding ≠ 0 := by norm_num [exStC4]
  obtain ⟨g, hg, _hstr, hmv, hconf⟩ := C4_theorem exSocC4 exStC4 exTeC1 3 h1 h2 h3 h4
  refine ⟨g, hg, ?_, ?_⟩
  · rw [hmv]
    norm_num [exStC4]
  · exact hconf (by norm_num [exTeC1]) (by norm_num [exStC4, pyOrZero])

/-- C4 counterexample: at short_interest 20, sentiment 0.3, 150 mentions,
no spike, the emitted strength is 0.59 (the code's `min(SI/50, 0.4)` term
contributes 0.4) whereas the claim's formula `0.4×min(SI/50, 1)` gives
0.35 — the claim's strength formula does not match the code. -/
theorem C4_counterexample :
    ((detect_squeeze_setup exSocC4 exStC4 exTeC1 0).toOption.getD []).map
        DivergenceSignal.strength = [(59 : ℚ)/100] ∧
    claimedSqueezeStrength exSocC4 exStC4 exTeC1 = (7 : ℚ)/20 ∧
    (59 : ℚ)/100 ≠ (7 : ℚ)/20 := by
  refine ⟨?_, ?_, by norm_num⟩
  · norm_num [detect_squeeze_setup, exSocC4, exStC4, exTeC1, pyOrZero, qTruthy,
      Except.toOption, calculate_squeeze_strength]
  · norm_num [claimedSqueezeStrength, exSocC4, exStC4, exTeC1]

lemma all_catalyst_some (a : StockAnalysis) (t : Nat) :
    (detect_all_divergences a t).all (fun g => g.catalyst.isSome) = true := by
  have h := detect_all_good a t
  rw [List.all_eq_true] at h ⊢
  intro g hg
  have hgg := h g hg
  unfold goodSig at hgg
  simp only [Bool.and_eq_true] at hgg
  exact hgg.2

lemma convert_not_error (sym : String) (tot : ℚ) (ch : ChartProvider) (t : Nat) :
    ∀ sigs : List DivergenceSignal,
    sigs.all (fun g => g.catalyst.isSome) = true →
    ∀ e, convert_signals_to_alerts sym tot ch t sigs ≠ .error e := by
  intro sigs
  induction sigs with
  | nil =>
    intro _ e h
    simp [convert_signals_to_alerts] at h
  | cons s rest ih =>
    intro hall e
    simp only [List.all_cons, Bool.and_eq_true] at hall
    obtain ⟨c, hc⟩ := Option.isSome_iff_exists.mp hall.1
    simp only [convert_signals_to_alerts, hc]
    cases hrest : convert_signals_to_alerts sym tot ch t rest with
    | error e2 => exact absurd hrest (ih hall.2 e2)
    | ok more => simp

/-- C6: when the fundamental provider raises and the other four succeed,
the analysis still completes: the fundamental snapshot used downstream is
the documented neutral default (market cap 0, every optional field
absent), the other four snapshots are exactly the providers' results, and
a CompositeScore is produced. -/
theorem C6_theorem : ∀ (sym : String) (s : SocialSentiment)
    (te : TechnicalAnalysis) (an : AnalystCoverage) (st : StockStructure)
    (w : Weights) (ch : ChartProvider) (t : Nat),
    ((analyze_stock sym "" ⟨.ok s, .ok te, .error (), .ok an, .ok st⟩ w ch t).map
        StockAnalysis.fundamental_data) = some default_fundamental_data ∧
    ((analyze_stock sym "" ⟨.ok s, .ok te, .error (), .ok an, .ok st⟩ w ch t).map
        StockAnalysis.social_sentiment) = some s ∧
    ((analyze_stock sym "" ⟨.ok s, .ok te, .error (), .ok an, .ok st⟩ w ch t).map
        StockAnalysis.technical_analysis) = some te ∧
    ((analyze_stock sym "" ⟨.ok s, .ok te, .error (), .ok an, .ok st⟩ w ch t).map
        StockAnalysis.analyst_coverage) = some an ∧
    ((analyze_stock sym "" ⟨.ok s, .ok te, .error (), .ok an, .ok st⟩ w ch t).map
        StockAnalysis.stock_structure) = some st ∧
    ((analyze_stock sym "" ⟨.ok s, .ok te, .error (), .ok an, .ok st⟩ w ch t).bind
        StockAnalysis.composite_score).isSome = true ∧
    default_fundamental_data.market_cap = 0 ∧
    default_fundamental_data.pe = none ∧ default_fundamental_data.ps = none ∧
    default_fundamental_data.revenue_growth_yoy = none ∧
    default_fundamental_data.profit_margin = none ∧
    default_fundamental_data.debt_to_equity = none ∧
    default_fundamental_data.current_r = none ∧
    default_fundamental_data.roe = none ∧
    default_fundamental_data.free_cash_flow = none ∧
    default_fundamental_data.enterprise_value = none ∧
    default_fundamental_data.book_value = none := by
  intro sym s te an st w ch t
  simp only [analyze_stock]
  split
  · rename_i e heq
    exact absurd heq (convert_not_error _ _ _ _ _ (all_catalyst_some _ _) e)
  · simp [default_fundamental_data]

lemma d1_clear (s : SocialSentiment) (an : AnalystCoverage) (t1 t2 : Nat) :
    (detect_sentiment_divergence s an t1).map (List.map clearSig) =
      (detect_sentiment_divergence s an t2).map (List.map clearSig) := by
  simp only [detect_sentiment_divergence]
  cases hpi : pyInt an.consensus_rating.value with
  | none => split_ifs <;> rfl
  | some n => split_ifs <;> simp [clearSig, Except.map]

lemma d2_clear (s : SocialSentiment) (st : StockStructure)
    (te : TechnicalAnalysis) (t1 t2 : Nat) :
    (detect_squeeze_setup s st te t1).map (List.map clearSig) =
      (detect_squeeze_setup s st te t2).map (List.map clearSig) := by
  simp only [detect_squeeze_setup]
  split_ifs <;> simp [clearSig, Except.map]

lemma d3_clear (s : SocialSentiment) (te : TechnicalAnalysis)
    (an : AnalystCoverage) (t1 t2 : Nat) :
    (detect_momentum_divergence s te an t1).map clearSig =
      (detect_momentum_divergence s te an t2).map clearSig := by
  simp only [detect_momentum_divergence]
  split_ifs <;> simp [clearSig]

lemma d4_clear (f : FundamentalData) (an : AnalystCoverage)
    (te : TechnicalAnalysis) (t1 t2 : Nat) :
    (detect_value_trap f an te t1).map clearSig =
      (detect_value_trap f an te t2).map clearSig := by
  simp only [detect_value_trap]
  split_ifs <;> simp [clearSig]

lemma d5_clear (s : SocialSentiment) (f : FundamentalData)
    (an : AnalystCoverage) (t1 t2 : Nat) :
    (detect_hidden_gem s f an t1).map clearSig =
      (detect_hidden_gem s f an t2).map clearSig := by
  simp only [detect_hidden_gem]
  split_ifs <;> simp [clearSig]

lemma clearSig_stamp (g : DivergenceSignal) (sym : String) :
    clearSig { g with symbol := sym } = { clearSig g with symbol := sym } := rfl

lemma detect_all_clear (a b : StockAnalysis) (t1 t2 : Nat)
    (hsym : a.symbol = b.symbol)
    (h1 : a.social_sentiment = b.social_sentiment)
    (h2 : a.technical_analysis = b.technical_analysis)
    (h3 : a.fundamental_data = b.fundamental_data)
    (h4 : a.analyst_coverage = b.analyst_coverage)
    (h5 : a.stock_structure = b.stock_structure) :
    (detect_all_divergences a t1).map clearSig =
      (detect_all_divergences b t2).map clearSig := by
  unfold detect_all_divergences
  rw [hsym, h1, h2, h3, h4, h5]
  have hd1 := d1_clear b.social_sentiment b.analyst_coverage t1 t2
  cases hx : detect_sentiment_divergence b.social_sentiment b.analyst_coverage t1 with
  | error e =>
    cases hy : detect_sentiment_divergence b.social_sentiment b.analyst_coverage t2 with
    | error e2 => rfl
    | ok l => rw [hx, hy] at hd1; simp [Except.map] at hd1
  | ok l1 =>
    cases hy : detect_sentiment_divergence b.social_sentiment b.analyst_coverage t2 with
    | error e2 => rw [hx, hy] at hd1; simp [Except.map] at hd1
    | ok l1b =>
      rw [hx, hy] at hd1
      simp only [Except.map, Except.ok.injEq] at hd1
      have hd2 := d2_clear b.social_sentiment b.stock_structure b.technical_analysis t1 t2
      cases hx2 : detect_squeeze_setup b.social_sentiment b.stock_structure
          b.technical_analysis t1 with
      | error e =>
        cases hy2 : detect_squeeze_setup b.social_sentiment b.stock_structure
            b.technical_analysis t2 with
        | error e2 => exact hd1
        | ok l => rw [hx2, hy2] at hd2; simp [Except.map] at hd2
      | ok l2 =>
        cases hy2 : detect_squeeze_setup b.social_sentiment b.stock_structure
            b.technical_analysis t2 with
        | error e2 => rw [hx2, hy2] at hd2; simp [Except.map] at hd2
        | ok l2b =>
          rw [hx2, hy2] at hd2
          simp only [Except.map, Except.ok.injEq] at hd2
          have hd3 := d3_clear b.social_sentiment b.technical_analysis
            b.analyst_coverage t1 t2
          have hd4 := d4_clear b.fundamental_data b.analyst_coverage
            b.technical_analysis t1 t2
          have hd5 := d5_clear b.social_sentiment b.fundamental_data
            b.analyst_coverage t1 t2
          simp only [List.map_map]
          have hcomp : (clearSig ∘ fun g : DivergenceSignal =>
              { g with symbol := b.symbol }) =
              ((fun g : DivergenceSignal => { g with symbol := b.symbol }) ∘ clearSig) :=
            funext fun g => rfl
          rw [hcomp]
          rw [← List.map_map, ← List.map_map]
          congr 1
          simp only [List.map_append]
          rw [hd1, hd2, hd3, hd4, hd5]

lemma calc_clear (a b : StockAnalysis) (w : Weights) (t1 t2 : Nat)
    (h1 : a.social_sentiment = b.social_sentiment)
    (h2 : a.technical_analysis = b.technical_analysis)
    (h3 : a.fundamental_data = b.fundamental_data)
    (h4 : a.analyst_coverage = b.analyst_coverage)
    (h5 : a.stock_structure = b.stock_structure) :
    clearCS (calculate_composite_score a w t1) =
      clearCS (calculate_composite_score b w t2) := by
  simp only [calculate_composite_score, determine_risk_level,
    determine_opportunity_type, calculate_confidence, clearCS, h1, h2, h3, h4, h5]

lemma clearSig_fields (x y : DivergenceSignal) (h : clearSig x = clearSig y) :
    x.strength = y.strength ∧ x.divergence_type = y.divergence_type ∧
    x.description = y.description ∧ x.catalyst = y.catalyst := by
  have hs := congrArg DivergenceSignal.strength h
  have ht := congrArg DivergenceSignal.divergence_type h
  have hd := congrArg DivergenceSignal.description h
  have hc := congrArg DivergenceSignal.catalyst h
  exact ⟨hs, ht, hd, hc⟩

lemma convert_clear (sym : String) (ch : ChartProvider) (tot : ℚ) (t1 t2 : Nat) :
    ∀ (sigs1 sigs2 : List DivergenceSignal),
    sigs1.map clearSig = sigs2.map clearSig →
    (convert_signals_to_alerts sym tot ch t1 sigs1).map (List.map clearAlert) =
      (convert_signals_to_alerts sym tot ch t2 sigs2).map (List.map clearAlert) := by
  intro sigs1
  induction sigs1 with
  | nil =>
    intro sigs2 h
    have : sigs2 = [] := by
      cases sigs2 with
      | nil => rfl
      | cons x xs => simp at h
    subst this
    rfl
  | cons s1 r1 ih =>
    intro sigs2 h
    cases sigs2 with
    | nil => simp at h
    | cons s2 r2 =>
      simp only [List.map_cons, List.cons.injEq] at h
      obtain ⟨hhead, htail⟩ := h
      obtain ⟨hstr, htype, hdesc, hcat⟩ := clearSig_fields s1 s2 hhead
      simp only [convert_signals_to_alerts, hstr, htype, hdesc, hcat]
      cases hc : s2.catalyst with
      | none => rfl
      | some c =>
        have hrec := ih r2 htail
        cases hr1 : convert_signals_to_alerts sym tot ch t1 r1 with
        | error e =>
          cases hr2 : convert_signals_to_alerts sym tot ch t2 r2 with
          | error e2 => rfl
          | ok m2 => rw [hr1, hr2] at hrec; simp [Except.map] at hrec
        | ok m1 =>
          cases hr2 : convert_signals_to_alerts sym tot ch t2 r2 with
          | error e2 => rw [hr1, hr2] at hrec; simp [Except.map] at hrec
          | ok m2 =>
            rw [hr1, hr2] at hrec
            simp only [Except.map, Except.ok.injEq] at hrec
            simp [Except.map, clearAlert, hrec]

lemma analyze_clear_of_ok (sym cn : String) (soc : SocialSentiment)
    (tec : TechnicalAnalysis) (fund : FundamentalData) (an : AnalystCoverage)
    (st : StockStructure) (w : Weights) (ch : ChartProvider) (t1 t2 : Nat) :
    ((analyze_stock sym cn ⟨.ok soc, .ok tec, .ok fund, .ok an, .ok st⟩ w ch t1).map
        fun a => a.composite_score.map clearCS) =
      ((analyze_stock sym cn ⟨.ok soc, .ok tec, .ok fund, .ok an, .ok st⟩ w ch t2).map
        fun a => a.composite_score.map clearCS) ∧
    ((analyze_stock sym cn ⟨.ok soc, .ok tec, .ok fund, .ok an, .ok st⟩ w ch t1).map
        fun a => a.alerts.map clearAlert) =
      ((analyze_stock sym cn ⟨.ok soc, .ok tec, .ok fund, .ok an, .ok st⟩ w ch t2).map
        fun a => a.alerts.map clearAlert) := by
  simp only [analyze_stock]
  set A0x : StockAnalysis := ⟨sym, (if cn = "" then sym else cn), "Unknown",
    "Unknown", soc, tec, fund, an, st, none, [], t1⟩ with hA0x
  set A0y : StockAnalysis := ⟨sym, (if cn = "" then sym else cn), "Unknown",
    "Unknown", soc, tec, fund, an, st, none, [], t2⟩ with hA0y
  set CSx := calculate_composite_score A0x w t1 with hCSx
  set CSy := calculate_composite_score A0y w t2 with hCSy
  set A1x : StockAnalysis := ⟨sym, (if cn = "" then sym else cn), "Unknown",
    "Unknown", soc, tec, fund, an, st, some CSx, [], t1⟩ with hA1x
  set A1y : StockAnalysis := ⟨sym, (if cn = "" then sym else cn), "Unknown",
    "Unknown", soc, tec, fund, an, st, some CSy, [], t2⟩ with hA1y
  have hcs : clearCS CSx = clearCS CSy := calc_clear A0x A0y w t1 t2 rfl rfl rfl rfl rfl
  have htot : CSx.total_score = CSy.total_score := by
    have h := congrArg CompositeScore.total_score hcs
    exact h
  have hsig : (detect_all_divergences A1x t1).map clearSig =
      (detect_all_divergences A1y t2).map clearSig :=
    detect_all_clear A1x A1y t1 t2 rfl rfl rfl rfl rfl rfl
  have hconv : (convert_signals_to_alerts sym CSx.total_score ch t1
        (detect_all_divergences A1x t1)).map (List.map clearAlert) =
      (convert_signals_to_alerts sym CSy.total_score ch t2
        (detect_all_divergences A1y t2)).map (List.map clearAlert) := by
    rw [htot]
    exact convert_clear sym ch CSy.total_score t1 t2 _ _ hsig
  constructor
  · cases hc1 : convert_signals_to_alerts sym CSx.total_score ch t1
        (detect_all_divergences A1x t1) with
    | error e =>
      cases hc2 : convert_signals_to_alerts sym CSy.total_score ch t2
          (detect_all_divergences A1y t2) with
      | error e2 => rfl
      | ok m2 => rw [hc1, hc2] at hconv; simp [Except.map] at hconv
    | ok m1 =>
      cases hc2 : convert_signals_to_alerts sym CSy.total_score ch t2
          (detect_all_divergences A1y t2) with
      | error e2 => rw [hc1, hc2] at hconv; simp [Except.map] at hconv
      | ok m2 => simp [Option.map, hcs]
  · cases hc1 : convert_signals_to_alerts sym CSx.total_score ch t1
        (detect_all_divergences A1x t1) with
    | error e =>
      cases hc2 : convert_signals_to_alerts sym CSy.total_score ch t2
          (detect_all_divergences A1y t2) with
      | error e2 => rfl
      | ok m2 => rw [hc1, hc2] at hconv; simp [Except.map] at hconv
    | ok m1 =>
      cases hc2 : convert_signals_to_alerts sym CSy.total_score ch t2
          (detect_all_divergences A1y t2) with
      | error e2 => rw [hc1, hc2] at hconv; simp [Except.map] at hconv
      | ok m2 =>
        rw [hc1, hc2] at hconv
        simp only [Except.map, Except.ok.injEq] at hconv
        simp [Option.map, hconv]

/-- C9 (amended): two runs of `analyze` on identical snapshots, weights and
chart collaborator agree on every field of the CompositeScore and of every
Alert (element-wise, in order) EXCEPT the wall-clock `timestamp` fields,
which record each run's own clock; runs at the same clock instant are
bit-identical.  The claim as stated fails only because of the timestamps
stamped via `datetime.now()`. -/
theorem C9_theorem : ∀ (sym cn : String) (p : ProviderOutcomes) (w : Weights)
    (ch : ChartProvider) (t1 t2 : Nat),
    ((analyze_stock sym cn p w ch t1).map fun a => a.composite_score.map clearCS) =
      ((analyze_stock sym cn p w ch t2).map fun a => a.composite_score.map clearCS) ∧
    ((analyze_stock sym cn p w ch t1).map fun a => a.alerts.map clearAlert) =
      ((analyze_stock sym cn p w ch t2).map fun a => a.alerts.map clearAlert) := by
  intro sym cn p w ch t1 t2
  have hres : ∀ t : Nat, analyze_stock sym cn p w ch t =
      analyze_stock sym cn
        ⟨.ok (match p.social with | .ok s => s | .error _ => default_social_sentiment),
         .ok (match p.technical with | .ok s => s | .error _ => default_technical_analysis),
         .ok (match p.fundamental with | .ok s => s | .error _ => default_fundamental_data),
         .ok (match p.analyst with | .ok s => s | .error _ => default_analyst_coverage),
         .ok (match p.struct with | .ok s => s | .error _ => default_stock_structure)⟩
        w ch t := fun t => rfl
  rw [hres t1, hres t2]
  exact analyze_clear_of_ok sym cn _ _ _ _ _ w ch t1 t2

/-- C9 counterexample: running `analyze` twice on identical snapshots
(neutral defaults, all providers succeeding) at clock instants 0 and 1
yields CompositeScore records that are NOT equal in every field: their
`timestamp` fields are 0 and 1 respectively, refuting bit-identity of two
temporally separated runs. -/
theorem C9_counterexample :
    ((analyze_stock "GME" "" pDefault defaultWeights chNone 0).map
        fun a => a.composite_score.map CompositeScore.timestamp) = some (some 0) ∧
    ((analyze_stock "GME" "" pDefault defaultWeights chNone 1).map
        fun a => a.composite_score.map CompositeScore.timestamp) = some (some 1) ∧
    ((analyze_stock "GME" "" pDefault defaultWeights chNone 0).map
        fun a => a.composite_score) ≠
      ((analyze_stock "GME" "" pDefault defaultWeights chNone 1).map
        fun a => a.composite_score) := by
  have ev : ∀ t : Nat, ((analyze_stock "GME" "" pDefault defaultWeights chNone t).map
      fun a => a.composite_score.map CompositeScore.timestamp) = some (some t) := by
    intro t
    norm_num [analyze_stock, pDefault, detect_all_divergences,
      detect_sentiment_divergence, detect_squeeze_setup,
      detect_momentum_divergence, detect_value_trap, detect_hidden_gem,
      default_social_sentiment, default_technical_analysis,
      default_fundamental_data, default_analyst_coverage,
      default_stock_structure, convert_signals_to_alerts, qTruthy, pyOrZero,
      calculate_composite_score, Option.map]
  refine ⟨ev 0, ev 1, ?_⟩
  intro h
  have h2 := congrArg (Option.map (Option.map CompositeScore.timestamp)) h
  rw [Option.map_map, Option.map_map] at h2
  rw [show (Option.map CompositeScore.timestamp ∘ fun a : StockAnalysis =>
    a.composite_score) = (fun a : StockAnalysis =>
    a.composite_score.map CompositeScore.timestamp) from rfl] at h2
  rw [ev 0, ev 1] at h2
  exact absurd (Option.some.inj (Option.some.inj h2)) (by decide)

lemma squeeze_emits (s : SocialSentiment) (st : StockStructure)
    (te : TechnicalAnalysis) (t : Nat)
    (hsh : st.shares_outstanding ≠ 0) (hsi : st.short_interest = 25)
    (hm : s.mentions = 500) (hsc : s.sentiment_score = 0.4)
    (hsp : te.volume_spike = true) :
    ∃ g, detect_squeeze_setup s st te t = .ok [g] ∧
      g.divergence_type = .squeeze_setup ∧ g.strength = (77 : ℚ)/100 ∧
      g.catalyst = some "Retail buying pressure vs short covering" := by
  simp only [detect_squeeze_setup]
  rw [if_pos ⟨by rw [hsi]; norm_num, by rw [hm]; norm_num, by rw [hsc]; norm_num⟩,
    if_neg hsh]
  refine ⟨_, rfl, rfl, ?_, rfl⟩
  simp only [calculate_squeeze_strength, hsi, hm, hsc, hsp]
  norm_num

/-- C8 (amended): a snapshot set containing SocialSnapshot(mentions=500,
sentiment=0.4), TechnicalSnapshot(volume_spike=true, trend=neutral) and
StructureSnapshot(short_interest=25, squeeze_sub_score=70), with non-zero
shares outstanding, always yields a short_squeeze_setup signal of strength
0.77 ≥ 0.5; an Alert for it exists, and its priority is in {high, medium}
provided the composite total score exceeds 50 (the claim omits the
shares-outstanding and total-score provisos, without which no signal, or
only a low-priority alert, is produced — see the counterexample). -/
theorem C8_theorem : ∀ (sym cn : String) (s : SocialSentiment)
    (te : TechnicalAnalysis) (fu : FundamentalData) (an : AnalystCoverage)
    (st : StockStructure) (ch : ChartProvider) (t : Nat) (A : StockAnalysis),
    st.shares_outstanding ≠ 0 →
    analyze_stock sym cn
        ⟨.ok { s with mentions := 500, sentiment_score := 0.4 },
         .ok { te with volume_spike := true, trend_direction := .neutral },
         .ok fu, .ok an,
         .ok { st with short_interest := 25, short_squeeze_score := 70 }⟩
        defaultWeights ch t = some A →
    50 < (A.composite_score.map CompositeScore.total_score).getD 0 →
    ((detect_all_divergences A t).any fun g =>
        g.divergence_type == DivergenceType.squeeze_setup &&
          decide ((1 : ℚ)/2 ≤ g.strength)) = true ∧
    (A.alerts.any fun al =>
        al.alert_type == "short_squeeze_setup" &&
          (al.priority == "high" || al.priority == "medium")) = true := by
  intro sym cn s te fu an st ch t A hsh hA htot
  set S : SocialSentiment := { s with mentions := 500, sentiment_score := 0.4 } with hS
  set TE : TechnicalAnalysis :=
    { te with volume_spike := true, trend_direction := .neutral } with hTE
  set ST : StockStructure :=
    { st with short_interest := 25, short_squeeze_score := 70 } with hST
  simp only [analyze_stock] at hA
  set A0 : StockAnalysis := ⟨sym, (if cn = "" then sym else cn), "Unknown",
    "Unknown", S, TE, fu, an, ST, none, [], t⟩ with hA0
  set CS := calculate_composite_score A0 defaultWeights t with hCS
  set A1 : StockAnalysis := ⟨sym, (if cn = "" then sym else cn), "Unknown",
    "Unknown", S, TE, fu, an, ST, some CS, [], t⟩ with hA1
  set VT := detect_value_trap fu an TE t with hVT
  have hd1 : detect_sentiment_divergence S an t = .ok [] := by
    simp only [detect_sentiment_divergence]
    rw [if_neg, if_neg]
    · norm_num [hS]
    · norm_num [hS]
  obtain ⟨g, hd2, hgtype, hgstr, hgcat⟩ := squeeze_emits S ST TE t hsh rfl rfl rfl rfl
  have hd3 : detect_momentum_divergence S TE an t = [] := by
    simp only [detect_momentum_divergence]
    rw [if_neg]
    norm_num [hS]
  have hd5 : detect_hidden_gem S fu an t = [] := by
    simp only [detect_hidden_gem]
    rw [if_neg]
    norm_num [hS]
  have hsigs : detect_all_divergences A1 t =
      ({ g with symbol := sym } : DivergenceSignal) ::
        VT.map (fun x => { x with symbol := sym }) := by
    unfold detect_all_divergences
    have e1 : A1.social_sentiment = S := rfl
    have e2 : A1.analyst_coverage = an := rfl
    have e3 : A1.stock_structure = ST := rfl
    have e4 : A1.technical_analysis = TE := rfl
    have e5 : A1.fundamental_data = fu := rfl
    have e6 : A1.symbol = sym := rfl
    rw [e1, e2, e3, e4, e5, e6, hd1, hd2, hd3, hd5]
    simp
  rw [hsigs] at hA
  have hvtall : (VT.map (fun x : DivergenceSignal => { x with symbol := sym })).all
      (fun g2 => g2.catalyst.isSome) = true := by
    have h4 := d4_good fu an TE t
    rw [← hVT] at h4
    rw [List.all_eq_true] at h4
    rw [List.all_map, List.all_eq_true]
    intro x hx
    have hgx := h4 x hx
    unfold goodSig at hgx
    simp only [Bool.and_eq_true] at hgx
    simpa using hgx.2
  simp only [convert_signals_to_alerts] at hA
  have hgc : ({ g with symbol := sym } : DivergenceSignal).catalyst =
      some "Retail buying pressure vs short covering" := hgcat
  rw [hgc] at hA
  cases hcr : convert_signals_to_alerts sym CS.total_score ch t
      (VT.map (fun x => { x with symbol := sym })) with
  | error e =>
    rw [hcr] at hA
    exact absurd hcr (convert_not_error _ _ _ _ _ hvtall e)
  | ok more =>
    rw [hcr] at hA
    simp only [Option.some.injEq] at hA
    have hdet : detect_all_divergences A t =
        ({ g with symbol := sym } : DivergenceSignal) ::
          VT.map (fun x => { x with symbol := sym }) := by
      rw [← hA]
      exact hsigs
    rw [← hA] at htot
    dsimp only at htot
    constructor
    · rw [hdet]
      simp only [List.any_cons, Bool.or_eq_true, Bool.and_eq_true, beq_iff_eq,
        decide_eq_true_eq]
      left
      constructor
      · exact hgtype
      · show (1 : ℚ)/2 ≤ g.strength
        rw [hgstr]
        norm_num
    · rw [← hA]
      dsimp only
      simp only [List.any_cons, Bool.or_eq_true, Bool.and_eq_true, beq_iff_eq]
      left
      have hp1 : ¬(g.strength > 0.8 ∧ CS.total_score > 70) := by
        intro hc
        have h8 : (77 : ℚ)/100 > 0.8 := hgstr ▸ hc.1
        exact absurd h8 (by norm_num)
      have hp2 : g.strength > 0.6 ∧ CS.total_score > 50 := by
        refine ⟨?_, htot⟩
        rw [hgstr]
        norm_num
      constructor
      · show g.divergence_type.value = "short_squeeze_setup"
        rw [hgtype]
        rfl
      · right
        show (if g.strength > 0.8 ∧ CS.total_score > 70 then "high"
          else if g.strength > 0.6 ∧ CS.total_score > 50 then "medium"
          else "low") = "medium"
        rw [if_neg hp1, if_pos hp2]

/-- C8 witness: on the fully-specified snapshot set `pC8` (which satisfies
the amended hypotheses: non-zero shares outstanding, composite total
4721/60 > 50) the analysis yields the squeeze signal of strength 0.77 and a
medium-priority short_squeeze_setup alert, via the amended theorem. -/
theorem C8_witness :
    ((analyze_stock "GME" "" pC8 defaultWeights chNone 5).map fun a =>
      ((detect_all_divergences a 5).any fun g =>
          g.divergence_type == DivergenceType.squeeze_setup &&
            decide ((1 : ℚ)/2 ≤ g.strength)) &&
        (a.alerts.any fun al =>
          al.alert_type == "short_squeeze_setup" &&
            (al.priority == "high" || al.priority == "medium"))) = some true := by
  have hm1 : pyLower "moon" = "moon" := by decide
  have htd : (TrendDirection.neutral = TrendDirection.bullish) = False := by
    simp
  have hlc : pyLower "Retail buying pressure vs short covering" =
      "retail buying pressure vs short covering" := by decide
  have hs1 : strContains "retail buying pressure vs short covering" "social" = false := by
    decide
  have hs2 : strContains "retail buying pressure vs short covering" "technical" = false := by
    decide
  have hs3 : strContains "retail buying pressure vs short covering" "fundamental" = false := by
    decide
  have hs4 : strContains "retail buying pressure vs short covering" "analyst" = false := by
    decide
  have hs5 : strContains "retail buying pressure vs short covering" "short" = true := by
    decide
  have hev : ((analyze_stock "GME" "" pC8 defaultWeights chNone 5).map fun a =>
      (a.composite_score.map CompositeScore.total_score).getD 0) =
      some ((4721 : ℚ)/60) := by
    norm_num [analyze_stock, pC8, exSocC8, exTeC8, exFuC8, exAnC8, exStC8,
      detect_all_divergences, detect_sentiment_divergence, detect_squeeze_setup,
      detect_momentum_divergence, detect_value_trap, detect_hidden_gem,
      calculate_squeeze_strength, convert_signals_to_alerts,
      calculate_composite_score, determine_risk_level,
      determine_opportunity_type, calculate_confidence, score_sentiment,
      sentimentSteps, keywordScore, bullishKeywords, bearishKeywords,
      score_technical, dictGet, score_fundamental, score_pe, score_ps,
      score_growth, score_profit_margin, score_debt, score_current, score_roe,
      score_analyst_coverage, score_stock_structure, pyClamp, qTruthy, sTruthy,
      pyOrZero, defaultWeights, chNone, hm1, hlc, hs1, hs2, hs3, hs4, hs5, htd,
      Option.map]
  cases hA : analyze_stock "GME" "" pC8 defaultWeights chNone 5 with
  | none => rw [hA] at hev; simp at hev
  | some A =>
    rw [hA] at hev
    have h0 : ((some A).map fun a : StockAnalysis =>
        (a.composite_score.map CompositeScore.total_score).getD 0) =
        some ((A.composite_score.map CompositeScore.total_score).getD 0) := rfl
    rw [h0] at hev
    have hev2 := Option.some.inj hev
    have htot : 50 < (A.composite_score.map CompositeScore.total_score).getD 0 := by
      rw [hev2]
      norm_num
    have h := C8_theorem "GME" "" exSocC8 exTeC8 exFuC8 exAnC8 exStC8 chNone 5 A
      (by norm_num [exStC8]) hA htot
    have hgoal : ((some A).map fun a : StockAnalysis =>
        ((detect_all_divergences a 5).any fun g =>
            g.divergence_type == DivergenceType.squeeze_setup &&
              decide ((1 : ℚ)/2 ≤ g.strength)) &&
          (a.alerts.any fun al =>
            al.alert_type == "short_squeeze_setup" &&
              (al.priority == "high" || al.priority == "medium"))) =
        some (((detect_all_divergences A 5).any fun g =>
            g.divergence_type == DivergenceType.squeeze_setup &&
              decide ((1 : ℚ)/2 ≤ g.strength)) &&
          (A.alerts.any fun al =>
            al.alert_type == "short_squeeze_setup" &&
              (al.priority == "high" || al.priority == "medium"))) := rfl
    rw [hgoal, h.1, h.2]
    rfl

set_option maxHeartbeats 1600000 in
/-- C8 counterexample: the snapshot set `pC8b` contains exactly the three
snapshots the claim specifies (mentions 500, sentiment 0.4; volume spike
with neutral trend; short interest 25 with squeeze score 70), yet the only
alert produced is the short_squeeze_setup alert with priority "low" — not
high or medium — because the adversarial remaining fields drive the
composite total to 115/4 < 50; the squeeze signal itself (strength 0.77 ≥
0.5) is still present. -/
theorem C8_counterexample :
    ((analyze_stock "GME" "" pC8b defaultWeights chNone 3).map fun a =>
        a.alerts.map (fun al => (al.alert_type, al.priority))) =
      some [("short_squeeze_setup", "low")] ∧
    ((analyze_stock "GME" "" pC8b defaultWeights chNone 3).map fun a =>
        (detect_all_divergences a 3).map
          (fun g => (g.divergence_type.value, g.strength))) =
      some [("short_squeeze_setup", (77 : ℚ)/100)] ∧
    exSocC8b.mentions = 500 ∧ exSocC8b.sentiment_score = 0.4 ∧
    exTeC8b.volume_spike = true ∧ exTeC8b.trend_direction = .neutral ∧
    exStC8b.short_interest = 25 ∧ exStC8b.short_squeeze_score = 70 := by
  have hb1 : pyLower "dump" ∉ bullishKeywords := by decide
  have hb2 : pyLower "dump" ∈ bearishKeywords := by decide
  have htd : (TrendDirection.neutral = TrendDirection.bullish) = False := by
    simp
  have he1 : (TrendDirection.bearish = TrendDirection.bullish) = False := by
    simp
  have he2 : (TrendDirection.bearish = TrendDirection.neutral) = False := by
    simp
  have hx1 : ("x" = "bullish") = False := by simp
  have hx2 : ("x" = "neutral") = False := by simp
  have hlc : pyLower "Retail buying pressure vs short covering" =
      "retail buying pressure vs short covering" := by decide
  have hs1 : strContains "retail buying pressure vs short covering" "social" = false := by
    decide
  have hs2 : strContains "retail buying pressure vs short covering" "technical" = false := by
    decide
  have hs3 : strContains "retail buying pressure vs short covering" "fundamental" = false := by
    decide
  have hs4 : strContains "retail buying pressure vs short covering" "analyst" = false := by
    decide
  have hs5 : strContains "retail buying pressure vs short covering" "short" = true := by
    decide
  refine ⟨?_, ?_, rfl, rfl, rfl, rfl, rfl, rfl⟩ <;>
    norm_num [analyze_stock, pC8b, exSocC8b, exTeC8b, exAnC8b, exStC8b,
      default_fundamental_data,
      detect_all_divergences, detect_sentiment_divergence, detect_squeeze_setup,
      detect_momentum_divergence, detect_value_trap, detect_hidden_gem,
      calculate_squeeze_strength, convert_signals_to_alerts,
      calculate_composite_score, determine_risk_level,
      determine_opportunity_type, calculate_confidence, score_sentiment,
      sentimentSteps, keywordScore,
      score_technical, dictGet, score_fundamental, score_pe, score_ps,
      score_growth, score_profit_margin, score_debt, score_current, score_roe,
      score_analyst_coverage, score_stock_structure, pyClamp, qTruthy, sTruthy,
      pyOrZero, defaultWeights, chNone, hb1, hb2, hlc, hs1, hs2, hs3, hs4, hs5,
      htd, he1, he2, hx1, hx2, Option.map, DivergenceType.value]
